import Mathlib

/-!
Verification of the digispark-hvp repository: a shallow embedding of the
ATtiny85 high-voltage serial programming sequencer (attiny85_hvprg.ino)
and the STK500v1 protocol bridge (digispark-hvp.ino), with theorems
checking the natural-language specification's claims against the code.

Modelling conventions:
* machine bytes are `Nat` taken `% 256` wherever the C code converts to
  `uint8_t`; 16-bit unsigned quantities are `Nat` taken `% 65536`;
  the Arduino Uno's 16-bit signed `int` is `Int` wrapped through `i16`
  (two's-complement wrap, the de-facto avr-gcc behaviour).
* `hvp_write(sdi, sii)` is recorded as the pair `(sdi % 256, sii % 256)`
  in a transfer trace; the byte it samples from the target is supplied
  by an oracle (`Nat → Nat`, indexed by the transfer's position inside
  the operation), masked to 8 bits since the C routine assembles exactly
  8 sampled bits. Pure delays (`delay`, `delayMicroseconds`) and the
  `hvp_wait_on_SDO` busy poll perform no transfer and carry no data, so
  they do not appear in the trace.
-/

/-! ## Hardware sequencer: pin-level model (attiny85_hvprg.ino) -/

/-- One digital pin of the programmer: whether it is configured as an
output, and the level of its output latch (`pinMode(_, INPUT)` keeps
the latch value). -/
structure Pin where
  output : Bool
  level : Bool
deriving DecidableEq

/-- The six programmer pins wired to the target (VCC, SDI, SII, SDO,
SCL, RST). -/
structure Pins where
  vcc : Pin
  sdi : Pin
  sii : Pin
  sdo : Pin
  scl : Pin
  rst : Pin
deriving DecidableEq

/-- `hvpStandbyMode`: leave programming mode.  Transcribed from the
source: RST driven HIGH, VCC and SCL driven LOW, SDO/SDI/SII
tri-stated (made inputs, latch retained). -/
def hvpStandbyMode (p : Pins) : Pins :=
  { vcc := ⟨true, false⟩
    sdi := ⟨false, p.sdi.level⟩
    sii := ⟨false, p.sii.level⟩
    sdo := ⟨false, p.sdo.level⟩
    scl := ⟨true, false⟩
    rst := ⟨true, true⟩ }

/-- `hvpProgramMode`: enter programming mode.  Final pin state after the
source's write sequence (VCC high, RST low, SDI/SII driven low, SDO
re-tristated, SCL low). -/
def hvpProgramMode (_ : Pins) : Pins :=
  { vcc := ⟨true, true⟩
    sdi := ⟨true, false⟩
    sii := ⟨true, false⟩
    sdo := ⟨false, false⟩
    scl := ⟨true, false⟩
    rst := ⟨true, false⟩ }

/-! ## Hardware sequencer: transfer traces -/

/-- attiny25/45/85 valid-bit mask for the low fuse byte. -/
def FUSEL_MASK : Nat := 0xff
/-- attiny25/45/85 valid-bit mask for the high fuse byte. -/
def FUSEH_MASK : Nat := 0xff
/-- attiny25/45/85 valid-bit mask for the extended fuse byte. -/
def FUSEE_MASK : Nat := 0x01
/-- attiny25/45/85 valid-bit mask for the lock-bits byte. -/
def LOCKB_MASK : Nat := 0x03

/-- The low 8 bits of the C expression `~m`: bitwise complement within
one byte. -/
def compl8 (m : Nat) : Nat := 0xff ^^^ (m % 256)

/-- `hvpWrFuseBitsLO`: transfer trace (pairs `(sdi, sii)` given to
`hvp_write`), from the source. `bits | ~FUSEL_MASK` truncated to the
`uint8_t` argument is `(bits % 256) ||| compl8 FUSEL_MASK`. -/
def hvpWrFuseBitsLO (bits : Nat) : List (Nat × Nat) :=
  [(0x40, 0x4c), ((bits % 256) ||| compl8 FUSEL_MASK, 0x2c), (0x00, 0x64), (0x00, 0x6c)]

/-- `hvpWrFuseBitsHI`: transfer trace, from the source. -/
def hvpWrFuseBitsHI (bits : Nat) : List (Nat × Nat) :=
  [(0x40, 0x4c), ((bits % 256) ||| compl8 FUSEH_MASK, 0x2c), (0x00, 0x74), (0x00, 0x7c)]

/-- `hvpWrFuseBitsEX`: transfer trace, from the source. -/
def hvpWrFuseBitsEX (bits : Nat) : List (Nat × Nat) :=
  [(0x40, 0x4c), ((bits % 256) ||| compl8 FUSEE_MASK, 0x2c), (0x00, 0x66), (0x00, 0x6e)]

/-- `hvpWrLockBits`: transfer trace, from the source. -/
def hvpWrLockBits (bits : Nat) : List (Nat × Nat) :=
  [(0x20, 0x4c), ((bits % 256) ||| compl8 LOCKB_MASK, 0x2c), (0x00, 0x64), (0x00, 0x6c)]

/-- `hvpRdFuseBitsLO`: returns the byte sampled during its final
transfer (index 2), plus the transfer trace; `t k` is the target's
sampled byte for the k-th transfer of the operation. -/
def hvpRdFuseBitsLO (t : Nat → Nat) : Nat × List (Nat × Nat) :=
  (t 2 % 256, [(0x04, 0x4c), (0x00, 0x68), (0x00, 0x6c)])

/-- `hvpRdFuseBitsHI`: sampled byte of the final transfer, with trace. -/
def hvpRdFuseBitsHI (t : Nat → Nat) : Nat × List (Nat × Nat) :=
  (t 2 % 256, [(0x04, 0x4c), (0x00, 0x7a), (0x00, 0x7e)])

/-- `hvpRdFuseBitsEX`: sampled byte of the final transfer, with trace. -/
def hvpRdFuseBitsEX (t : Nat → Nat) : Nat × List (Nat × Nat) :=
  (t 2 % 256, [(0x04, 0x4c), (0x00, 0x6a), (0x00, 0x6e)])

/-- `hvpRdLockBits`: sampled byte of the final transfer, with trace. -/
def hvpRdLockBits (t : Nat → Nat) : Nat × List (Nat × Nat) :=
  (t 2 % 256, [(0x04, 0x4c), (0x00, 0x78), (0x00, 0x7c)])

/-- `hvp_eop`: end-of-page test from the source,
`(b & m) == m`. -/
def hvp_eop (b m : Nat) : Bool := (b &&& m) == m

/-- hardcoded flash page mask (attiny45/85), from the source. -/
def FLASH_PAGE_MASK : Nat := 0x1f

/-- Loop body of `hvpWrFlash`, transcribed from the source.  `address`
is the current 16-bit word address (kept `< 65536` by wrapping the
increment), `words` the remaining word count, and `dst k` the k-th
payload byte still to be consumed (the C code walks a byte pointer).
Each word issues five transfers; when `hvp_eop` holds of the low
address byte, or the word was the last, the three-transfer page-commit
sequence follows. -/
def hvpWrFlashAux : Nat → Nat → (Nat → Nat) → List (Nat × Nat)
  | _, 0, _ => []
  | address, w + 1, dst =>
    let a := address / 256 % 256
    let b := address % 256
    [(b, 0x0c), (dst 0 % 256, 0x2c), (dst 1 % 256, 0x3c), (0, 0x7d), (0, 0x7c)]
      ++ (if hvp_eop b FLASH_PAGE_MASK || w == 0 then [(a, 0x1c), (0, 0x64), (0, 0x6c)] else [])
      ++ hvpWrFlashAux ((address + 1) % 65536) w (fun k => dst (k + 2))

/-- `hvpWrFlash`: full transfer trace — the write-flash command load,
the per-word loop, and the trailing no-operation command load. -/
def hvpWrFlash (address words : Nat) (dst : Nat → Nat) : List (Nat × Nat) :=
  (0x10, 0x4c) :: (hvpWrFlashAux (address % 65536) words dst ++ [(0x00, 0x4c)])

/-! Specification-side characterisation of the flash write loop, used to
state claim C2 as a refinement: one block per word, whose commit tail is
present exactly when the low address byte fills the page mask or the
word is the last of the request. -/

/-- Spec-side block for one flash word at absolute word address `addr`:
the five data transfers, then the page-commit sequence iff
`(low byte &&& 0x1f) = 0x1f` or this is the last word. -/
def specFlashBlock (addr : Nat) (last : Bool) (d0 d1 : Nat) : List (Nat × Nat) :=
  [(addr % 256, 0x0c), (d0 % 256, 0x2c), (d1 % 256, 0x3c), (0, 0x7d), (0, 0x7c)]
    ++ (if (addr % 256) &&& 0x1f = 0x1f ∨ last = true
        then [(addr / 256 % 256, 0x1c), (0, 0x64), (0, 0x6c)] else [])

/-- Transfers whose instruction byte is 0x64 occur only inside page
commits, so counting them counts commits. -/
def commitCount (tr : List (Nat × Nat)) : Nat :=
  (tr.filter (fun p => p.2 == 0x64)).length

/-! ## Protocol bridge (digispark-hvp.ino)

The bridge is embedded as a step function over an explicit state,
consuming a list of serial input bytes (a per-byte timeout is modelled
as exhaustion of the list) and producing the reply bytes, the sequence
of Hardware Sequencer calls, and the unconsumed input.  Sequencer calls
that sample data from the target obtain their bytes from an oracle. -/

/-- Wrap an `Int` to the Arduino Uno's 16-bit signed `int`
(two's-complement). -/
def i16 (x : Int) : Int := (x + 32768) % 65536 - 32768

/-- Convert an `Int` to the Uno's 16-bit `unsigned int`. -/
def u16 (x : Int) : Nat := (x % 65536).toNat

/-- One call into the Hardware Sequencer, with its arguments. -/
inductive HvpCall where
  | standby
  | progMode
  | custom
  | chipErase
  | wrFuseLO (b : Nat)
  | wrFuseHI (b : Nat)
  | wrFuseEX (b : Nat)
  | wrLock (b : Nat)
  | rdFuseLO
  | rdFuseHI
  | rdFuseEX
  | rdLock
  | sig0
  | sig1
  | sig2
  | wrFlash (addr words : Nat) (data : List Nat)
  | rdFlash (addr words : Nat)
  | wrEE (addr n : Nat) (data : List Nat)
  | rdEE (addr n : Nat)
deriving DecidableEq

/-- The target device, abstracted: the bytes each sequencer read call
samples. -/
def Oracle := HvpCall → List Nat

/-- Single sampled byte of a read call (8-bit). -/
def rd1 (o : Oracle) (c : HvpCall) : Nat := (o c).headD 0 % 256

/-- The `n` bytes a multi-byte read call stores into its destination. -/
def readBytes (o : Oracle) (c : HvpCall) (n : Nat) : List Nat :=
  (List.range n).map (fun i => (o c).getD i 0 % 256)

/-- Global mutable state of the bridge: the programming-mode flag
(the `static _mode` of `set_programming_mode`), the 16-bit address
cursor, the raw `device` record (20 bytes, byte 0 = devicecode), the
raw `extras` record (5 bytes, byte 0 = commandsize), and the 258-byte
transfer buffer. -/
structure BState where
  mode : Nat
  address : Nat
  device : List Nat
  extras : List Nat
  buffer : List Nat
deriving DecidableEq

/-- Result of processing one serial transaction: new state, reply
bytes written to the serial port, sequencer calls made (in order), and
the input bytes not consumed. -/
structure StepRes where
  state : BState
  out : List Nat
  calls : List HvpCall
  rest : List Nat
deriving DecidableEq

/-- `getch`: next serial byte, or `none` on the 900ms timeout
(modelled as exhaustion of the input list). -/
def getch : List Nat → Option (Nat × List Nat)
  | [] => none
  | b :: r => some (b % 256, r)

/-- `getbn`: read `n` bytes.  Returns the C routine's `c` (the last
byte read, `none` for the timeout's -1, `some 0` when `n = 0`), the
bytes actually stored, and the remaining input.  On a mid-sequence
timeout the earlier bytes have already been stored, as in the source. -/
def getbn : Nat → List Nat → Option Nat × List Nat × List Nat
  | 0, input => (some 0, [], input)
  | _ + 1, [] => (none, [], [])
  | n + 1, b :: r =>
    let t := getbn n r
    (if n = 0 then some (b % 256) else t.1, (b % 256) :: t.2.1, t.2.2)

/-- Store a byte sequence into a list starting at index `i`
(out-of-range `List.set` writes are dropped; in-range use is what the
safety claim is about). -/
def setBytes (buf : List Nat) (i : Nat) : List Nat → List Nat
  | [] => buf
  | b :: bs => setBytes (buf.set i b) (i + 1) bs

/-- `set_programming_mode`: takes the requested mode byte and the
current `_mode`, returns (return value, sequencer calls, new `_mode`).
A request `≥ 0x80` only reads the flag; a zero request always invokes
the standby sequence; a nonzero request `< 0x80` invokes the
program-mode sequence only when the flag was off. -/
def set_programming_mode (m mode : Nat) : Nat × List HvpCall × Nat :=
  if m % 256 < 0x80 then
    (m % 256,
     if m % 256 = 0 then [HvpCall.standby]
     else if mode = 0 then [HvpCall.progMode] else [],
     m % 256)
  else (mode, [], mode)

/-- `parameter`: fixed constants for the get-parameter command. -/
def parameter (id : Nat) : Nat :=
  if id = 0x80 then 2
  else if id = 0x81 then 1
  else if id = 0x82 then 20
  else if id = 0x93 then 0x53
  else 0

/-- `universal`: decode a 4-byte instruction tuple; returns the reply
byte and the sequencer calls made.  Transcribed case-for-case from the
source `switch` on `(req[0] << 8) | req[1]`. -/
def universal (o : Oracle) (r0 r1 r2 r3 : Nat) : Nat × List HvpCall :=
  let key := (r0 % 256) * 256 + (r1 % 256)
  if key = 0x5800 then (rd1 o HvpCall.rdLock, [HvpCall.rdLock])
  else if key = 0x5000 then (rd1 o HvpCall.rdFuseLO, [HvpCall.rdFuseLO])
  else if key = 0x5808 then (rd1 o HvpCall.rdFuseHI, [HvpCall.rdFuseHI])
  else if key = 0x5008 then (rd1 o HvpCall.rdFuseEX, [HvpCall.rdFuseEX])
  else if key = 0xace0 then (0, [HvpCall.wrLock (r3 % 256)])
  else if key = 0xaca0 then (0, [HvpCall.wrFuseLO (r3 % 256)])
  else if key = 0xaca8 then (0, [HvpCall.wrFuseHI (r3 % 256)])
  else if key = 0xaca4 then (0, [HvpCall.wrFuseEX (r3 % 256)])
  else if key = 0x3000 then
    if r2 % 256 = 0 then (rd1 o HvpCall.sig0, [HvpCall.sig0])
    else if r2 % 256 = 1 then (rd1 o HvpCall.sig1, [HvpCall.sig1])
    else if r2 % 256 = 2 then (rd1 o HvpCall.sig2, [HvpCall.sig2])
    else (0, [])
  else if key = 0xac80 then (0, [HvpCall.chipErase])
  else (0, [])

/-- `__abort`: unexpected serial timeout — force programming mode off
(always invoking the standby sequence) and fall through to the no-sync
reply. -/
def abortRes (s : BState) : StepRes :=
  ⟨{ s with mode := 0 }, [0x15], [HvpCall.standby], []⟩

/-- `__no_sync_reply`: the single no-sync token. -/
def noSyncRes (s : BState) (r : List Nat) : StepRes := ⟨s, [0x15], [], r⟩

/-- `__failure_reply`: in-sync then failed. -/
def failRes (s : BState) (r : List Nat) : StepRes := ⟨s, [0x14, 0x11], [], r⟩

/-- `__empty_reply`: read the sentinel, then reply in-sync/ok; timeouts
and bad sentinels as in the shared tail of the `switch`.  `pre` carries
sequencer calls a branch already made before jumping here. -/
def emptyReply (s : BState) (pre : List HvpCall) (input : List Nat) : StepRes :=
  match input with
  | [] => ⟨{ s with mode := 0 }, [0x15], pre ++ [HvpCall.standby], []⟩
  | z :: r =>
    if z % 256 = 0x20 then ⟨s, [0x14, 0x10], pre, r⟩
    else ⟨s, [0x15], pre, r⟩

/-- Command 'Z': escape to the interactive front-end (excluded from the
spec's scope), then `set_programming_mode(0)`.  The front-end itself is
abstracted as a single event; its final action in the source is the
standby sequence. -/
def cmdCustom (s : BState) (r : List Nat) : StepRes :=
  ⟨{ s with mode := 0 }, [], [HvpCall.custom, HvpCall.standby], r⟩

/-- Command 0x52 (STK_CHIP_ERASE). -/
def cmdChipErase (s : BState) (r : List Nat) : StepRes :=
  match getch r with
  | none => abortRes s
  | some (z, r) =>
    if z ≠ 0x20 then noSyncRes s r
    else if s.mode = 0 then failRes s r
    else ⟨s, [0x14, 0x10], [HvpCall.chipErase], r⟩

/-- Command 0x75 (STK_READ_SIGN). -/
def cmdReadSign (o : Oracle) (s : BState) (r : List Nat) : StepRes :=
  match getch r with
  | none => abortRes s
  | some (z, r) =>
    if z ≠ 0x20 then noSyncRes s r
    else if s.mode = 0 then failRes s r
    else ⟨s,
      [0x14, rd1 o HvpCall.sig0, rd1 o HvpCall.sig1, rd1 o HvpCall.sig2, 0x10],
      [HvpCall.sig0, HvpCall.sig1, HvpCall.sig2], r⟩

/-- Command 0x62 (STK_PROG_FUSE): payload `[lo, hi, sentinel]`. -/
def cmdProgFuse (s : BState) (r : List Nat) : StepRes :=
  let g := getbn 3 r
  let s1 := { s with buffer := setBytes s.buffer 0 g.2.1 }
  match g.1 with
  | none => abortRes s1
  | some c =>
    if c ≠ 0x20 then noSyncRes s1 g.2.2
    else if s.mode = 0 then failRes s1 g.2.2
    else ⟨s1, [0x14, 0x10],
      [HvpCall.wrFuseLO (s1.buffer.getD 0 0), HvpCall.wrFuseHI (s1.buffer.getD 1 0)],
      g.2.2⟩

/-- Command 0x65 (STK_PROG_FUSE_EXT): payload `[lo, hi, ex, sentinel]`. -/
def cmdProgFuseExt (s : BState) (r : List Nat) : StepRes :=
  let g := getbn 4 r
  let s1 := { s with buffer := setBytes s.buffer 0 g.2.1 }
  match g.1 with
  | none => abortRes s1
  | some c =>
    if c ≠ 0x20 then noSyncRes s1 g.2.2
    else if s.mode = 0 then failRes s1 g.2.2
    else ⟨s1, [0x14, 0x10],
      [HvpCall.wrFuseLO (s1.buffer.getD 0 0), HvpCall.wrFuseHI (s1.buffer.getD 1 0),
       HvpCall.wrFuseEX (s1.buffer.getD 2 0)],
      g.2.2⟩

/-- Command 0x72 (STK_READ_FUSE). -/
def cmdReadFuse (o : Oracle) (s : BState) (r : List Nat) : StepRes :=
  match getch r with
  | none => abortRes s
  | some (z, r) =>
    if z ≠ 0x20 then noSyncRes s r
    else if s.mode = 0 then failRes s r
    else ⟨s, [0x14, rd1 o HvpCall.rdFuseLO, rd1 o HvpCall.rdFuseHI, 0x10],
      [HvpCall.rdFuseLO, HvpCall.rdFuseHI], r⟩

/-- Command 0x77 (STK_READ_FUSE_EXT). -/
def cmdReadFuseExt (o : Oracle) (s : BState) (r : List Nat) : StepRes :=
  match getch r with
  | none => abortRes s
  | some (z, r) =>
    if z ≠ 0x20 then noSyncRes s r
    else if s.mode = 0 then failRes s r
    else ⟨s,
      [0x14, rd1 o HvpCall.rdFuseLO, rd1 o HvpCall.rdFuseHI, rd1 o HvpCall.rdFuseEX, 0x10],
      [HvpCall.rdFuseLO, HvpCall.rdFuseHI, HvpCall.rdFuseEX], r⟩

/-- Command 0x73 (STK_READ_LOCK). -/
def cmdReadLock (o : Oracle) (s : BState) (r : List Nat) : StepRes :=
  match getch r with
  | none => abortRes s
  | some (z, r) =>
    if z ≠ 0x20 then noSyncRes s r
    else if s.mode = 0 then failRes s r
    else ⟨s, [0x14, rd1 o HvpCall.rdLock, 0x10], [HvpCall.rdLock], r⟩

/-- Command 0x63 (STK_PROG_LOCK): payload `[lock, sentinel]`. -/
def cmdProgLock (s : BState) (r : List Nat) : StepRes :=
  let g := getbn 2 r
  let s1 := { s with buffer := setBytes s.buffer 0 g.2.1 }
  match g.1 with
  | none => abortRes s1
  | some c =>
    if c ≠ 0x20 then noSyncRes s1 g.2.2
    else if s.mode = 0 then failRes s1 g.2.2
    else ⟨s1, [0x14, 0x10], [HvpCall.wrLock (s1.buffer.getD 0 0)], g.2.2⟩

/-- Command 0x55 (STK_LOAD_ADDRESS): low byte first, then high byte;
the cursor is updated before the shared sentinel check. -/
def cmdLoadAddress (s : BState) (r : List Nat) : StepRes :=
  match getch r with
  | none => abortRes s
  | some (lo, r) =>
    match getch r with
    | none => abortRes s
    | some (hi, r) =>
      emptyReply { s with address := lo + 256 * hi } [] r

/-- Command 0x56 (STK_UNIVERSAL): payload `[r0, r1, r2, r3, sentinel]`. -/
def cmdUniversal (o : Oracle) (s : BState) (r : List Nat) : StepRes :=
  let g := getbn 5 r
  let s1 := { s with buffer := setBytes s.buffer 0 g.2.1 }
  match g.1 with
  | none => abortRes s1
  | some c =>
    if c ≠ 0x20 then noSyncRes s1 g.2.2
    else if s.mode = 0 then failRes s1 g.2.2
    else
      let u := universal o (s1.buffer.getD 0 0) (s1.buffer.getD 1 0)
                 (s1.buffer.getD 2 0) (s1.buffer.getD 3 0)
      ⟨s1, [0x14, u.1, 0x10], u.2, g.2.2⟩

/-- Command 0x60 (STK_PROG_FLASH): unsupported, replies unknown. -/
def cmdProgFlash (s : BState) (r : List Nat) : StepRes :=
  let g := getbn 3 r
  let s1 := { s with buffer := setBytes s.buffer 0 g.2.1 }
  match g.1 with
  | none => abortRes s1
  | some c =>
    if c ≠ 0x20 then noSyncRes s1 g.2.2
    else ⟨s1, [0x12], [], g.2.2⟩

/-- Command 0x61 (STK_PROG_DATA): payload `[byte, sentinel]`; one-byte
EEPROM write at the cursor, then the cursor advances. -/
def cmdProgData (s : BState) (r : List Nat) : StepRes :=
  let g := getbn 2 r
  let s1 := { s with buffer := setBytes s.buffer 0 g.2.1 }
  match g.1 with
  | none => abortRes s1
  | some c =>
    if c ≠ 0x20 then noSyncRes s1 g.2.2
    else if s.mode = 0 then failRes s1 g.2.2
    else ⟨{ s1 with address := (s.address + 1) % 65536 }, [0x14, 0x10],
      [HvpCall.wrEE s.address 1 [s1.buffer.getD 0 0]], g.2.2⟩

/-- Command 0x70 (STK_READ_FLASH): one flash word read at the cursor,
both bytes replied, then the cursor advances. -/
def cmdReadFlash (o : Oracle) (s : BState) (r : List Nat) : StepRes :=
  match getch r with
  | none => abortRes s
  | some (z, r) =>
    if z ≠ 0x20 then noSyncRes s r
    else if s.mode = 0 then failRes s r
    else
      let call := HvpCall.rdFlash s.address 1
      let s1 := { s with buffer := setBytes s.buffer 0 (readBytes o call 2),
                         address := (s.address + 1) % 65536 }
      ⟨s1, [0x14, s1.buffer.getD 0 0, s1.buffer.getD 1 0, 0x10], [call], r⟩

/-- Command 0x71 (STK_READ_DATA): as in the source, this branch calls
the flash read (`hvpRdFlash`), not the EEPROM read, and replies the
first buffered byte. -/
def cmdReadData (o : Oracle) (s : BState) (r : List Nat) : StepRes :=
  match getch r with
  | none => abortRes s
  | some (z, r) =>
    if z ≠ 0x20 then noSyncRes s r
    else if s.mode = 0 then failRes s r
    else
      let call := HvpCall.rdFlash s.address 1
      let s1 := { s with buffer := setBytes s.buffer 0 (readBytes o call 2),
                         address := (s.address + 1) % 65536 }
      ⟨s1, [0x14, s1.buffer.getD 0 0, 0x10], [call], r⟩

/-- Flash branch of the page program: the byte count `v` is halved to
a word count (C truncating division), the words are written from
buffer offset 1, and the cursor advances by the word count. -/
def progPageF (s s1 : BState) (v : Int) (rest : List Nat) : StepRes :=
  let w := Int.tdiv (v + 1) 2
  let data := (List.range (2 * u16 w)).map (fun i => s1.buffer.getD (i + 1) 0)
  ⟨{ s1 with address := u16 ((s.address : Int) + w) }, [0x14, 0x10],
   [HvpCall.wrFlash s.address (u16 w) data], rest⟩

/-- EEPROM branch of the page program: `v` bytes from buffer offset 1,
cursor advances by `v`. -/
def progPageE (s s1 : BState) (v : Int) (rest : List Nat) : StepRes :=
  let data := (List.range (u16 v)).map (fun i => s1.buffer.getD (i + 1) 0)
  ⟨{ s1 with address := u16 ((s.address : Int) + v) }, [0x14, 0x10],
   [HvpCall.wrEE s.address (u16 v) data], rest⟩

/-- Page program after the length bytes: read `v + 2` payload bytes
(tag, data, sentinel), then the sentinel / programming-mode / tag
checks, then one of the two memory branches. -/
def progPageGo (s : BState) (v : Int) (r : List Nat) : StepRes :=
  let g := getbn (u16 (v + 2)) r
  let s1 := { s with buffer := setBytes s.buffer 0 g.2.1 }
  match g.1 with
  | none => abortRes s1
  | some c =>
    if c ≠ 0x20 then noSyncRes s1 g.2.2
    else if s.mode = 0 then failRes s1 g.2.2
    else
      let b0 := s1.buffer.getD 0 0
      if ¬ (b0 = 0x45 ∨ b0 = 0x46) then failRes s1 g.2.2
      else if b0 = 0x46 then progPageF s s1 v g.2.2
      else progPageE s s1 v g.2.2

/-- Command 0x64 (STK_PROG_PAGE): two length bytes (high then low) into
the 16-bit signed `v`; lengths `> 256` are rejected. -/
def cmdProgPage (s : BState) : List Nat → StepRes
  | [] => abortRes s
  | [_] => abortRes s
  | c1 :: c2 :: r =>
    let v : Int := i16 (256 * ((c1 % 256 : Nat) : Int) + ((c2 % 256 : Nat) : Int))
    if 256 < v then noSyncRes s r
    else progPageGo s v r

/-- Flash branch of the page read: word count is the halved byte
count; the target fills the buffer, which is echoed as `2·w` bytes. -/
def readPageF (o : Oracle) (s s1 : BState) (v : Int) (rest : List Nat) : StepRes :=
  let w := Int.tdiv (v + 1) 2
  let call := HvpCall.rdFlash s.address (u16 w)
  let s2 := { s1 with buffer := setBytes s1.buffer 0 (readBytes o call (2 * u16 w)),
                      address := u16 ((s.address : Int) + w) }
  ⟨s2, [0x14] ++ (List.range (u16 (2 * w))).map (fun i => s2.buffer.getD i 0) ++ [0x10],
   [call], rest⟩

/-- EEPROM branch of the page read: `v` bytes filled and echoed. -/
def readPageE (o : Oracle) (s s1 : BState) (v : Int) (rest : List Nat) : StepRes :=
  let call := HvpCall.rdEE s.address (u16 v)
  let s2 := { s1 with buffer := setBytes s1.buffer 0 (readBytes o call (u16 v)),
                      address := u16 ((s.address : Int) + v) }
  ⟨s2, [0x14] ++ (List.range (u16 v)).map (fun i => s2.buffer.getD i 0) ++ [0x10],
   [call], rest⟩

/-- Page read after the length bytes: read `[tag, sentinel]`, then the
checks, then one of the two memory branches. -/
def readPageGo (o : Oracle) (s : BState) (v : Int) (r : List Nat) : StepRes :=
  let g := getbn 2 r
  let s1 := { s with buffer := setBytes s.buffer 0 g.2.1 }
  match g.1 with
  | none => abortRes s1
  | some c =>
    if c ≠ 0x20 then noSyncRes s1 g.2.2
    else if s.mode = 0 then failRes s1 g.2.2
    else
      let b0 := s1.buffer.getD 0 0
      if ¬ (b0 = 0x45 ∨ b0 = 0x46) then failRes s1 g.2.2
      else if b0 = 0x46 then readPageF o s s1 v g.2.2
      else readPageE o s s1 v g.2.2

/-- Command 0x74 (STK_READ_PAGE): two length bytes (high then low);
lengths `> 256` are rejected. -/
def cmdReadPage (o : Oracle) (s : BState) : List Nat → StepRes
  | [] => abortRes s
  | [_] => abortRes s
  | c1 :: c2 :: r =>
    let v : Int := i16 (256 * ((c1 % 256 : Nat) : Int) + ((c2 % 256 : Nat) : Int))
    if 256 < v then noSyncRes s r
    else readPageGo o s v r

/-- Command 0x41 (STK_GET_PARAMETER): payload `[id, sentinel]`; no
programming-mode requirement. -/
def cmdGetParam (s : BState) (r : List Nat) : StepRes :=
  let g := getbn 2 r
  let s1 := { s with buffer := setBytes s.buffer 0 g.2.1 }
  match g.1 with
  | none => abortRes s1
  | some c =>
    if c ≠ 0x20 then noSyncRes s1 g.2.2
    else ⟨s1, [0x14, parameter (s1.buffer.getD 0 0), 0x10], [], g.2.2⟩

/-- Command 0x40 (STK_SET_PARAMETER): reads two bytes, unimplemented;
the sentinel is then checked by the shared empty-reply tail. -/
def cmdSetParam (s : BState) (r : List Nat) : StepRes :=
  let g := getbn 2 r
  let s1 := { s with buffer := setBytes s.buffer 0 g.2.1 }
  match g.1 with
  | none => abortRes s1
  | some _ => emptyReply s1 [] g.2.2

/-- Command 0x42 (STK_SET_DEVICE): the 20-byte record is stored before
the sentinel check; a short read zeroes the device code and aborts. -/
def cmdSetDevice (s : BState) (r : List Nat) : StepRes :=
  let g := getbn 20 r
  let s1 := { s with device := setBytes s.device 0 g.2.1 }
  match g.1 with
  | none => abortRes { s1 with device := s1.device.set 0 0 }
  | some _ => emptyReply s1 [] g.2.2

/-- Command 0x45 (SET_DEVICE_EXT): the 5-byte record is stored before
the sentinel check; a short read zeroes the command size and aborts. -/
def cmdSetExtras (s : BState) (r : List Nat) : StepRes :=
  let g := getbn 5 r
  let s1 := { s with extras := setBytes s.extras 0 g.2.1 }
  match g.1 with
  | none => abortRes { s1 with extras := s1.extras.set 0 0 }
  | some _ => emptyReply s1 [] g.2.2

/-- Command 0x50 (STK_ENTER_PROGMODE): no-device reply if the device
code is unset, otherwise enter programming mode. -/
def cmdEnterProg (s : BState) (r : List Nat) : StepRes :=
  match getch r with
  | none => abortRes s
  | some (z, r) =>
    if z ≠ 0x20 then noSyncRes s r
    else if s.device.getD 0 0 = 0 then ⟨s, [0x14, 0x13], [], r⟩
    else
      let m := set_programming_mode 1 s.mode
      ⟨{ s with mode := m.2.2 }, [0x14, 0x10], m.2.1, r⟩

/-- Command 0x51 (STK_LEAVE_PROGMODE): standby is invoked and the flag
cleared before the shared sentinel check. -/
def cmdLeaveProg (s : BState) (r : List Nat) : StepRes :=
  emptyReply { s with mode := 0 } [HvpCall.standby] r

/-- Commands 0x53 / 0x30 (autoinc check, get sync): the shared
empty-reply tail. -/
def cmdSync (s : BState) (r : List Nat) : StepRes :=
  emptyReply s [] r

/-- Command 0x31 (STK_GET_SIGN_ON): the fixed identification string
"AVR ISP" between the sync tokens. -/
def cmdSignOn (s : BState) (r : List Nat) : StepRes :=
  match getch r with
  | none => abortRes s
  | some (z, r) =>
    if z ≠ 0x20 then noSyncRes s r
    else ⟨s, [0x14, 0x41, 0x56, 0x52, 0x20, 0x49, 0x53, 0x50, 0x10], [], r⟩

/-- Unknown command byte: a sentinel must follow; replies unknown. -/
def cmdUnknown (s : BState) (r : List Nat) : StepRes :=
  match getch r with
  | none => abortRes s
  | some (z, r) =>
    if z ≠ 0x20 then noSyncRes s r
    else ⟨s, [0x12], [], r⟩

/-- Dispatch on the command byte, mirroring the `switch` in `loop`. -/
def dispatch (o : Oracle) (s : BState) (c : Nat) (r : List Nat) : StepRes :=
  if c = 0x5a then cmdCustom s r
  else if c = 0x52 then cmdChipErase s r
  else if c = 0x75 then cmdReadSign o s r
  else if c = 0x62 then cmdProgFuse s r
  else if c = 0x65 then cmdProgFuseExt s r
  else if c = 0x72 then cmdReadFuse o s r
  else if c = 0x77 then cmdReadFuseExt o s r
  else if c = 0x73 then cmdReadLock o s r
  else if c = 0x63 then cmdProgLock s r
  else if c = 0x55 then cmdLoadAddress s r
  else if c = 0x56 then cmdUniversal o s r
  else if c = 0x60 then cmdProgFlash s r
  else if c = 0x61 then cmdProgData s r
  else if c = 0x70 then cmdReadFlash o s r
  else if c = 0x71 then cmdReadData o s r
  else if c = 0x64 then cmdProgPage s r
  else if c = 0x74 then cmdReadPage o s r
  else if c = 0x41 then cmdGetParam s r
  else if c = 0x40 then cmdSetParam s r
  else if c = 0x42 then cmdSetDevice s r
  else if c = 0x45 then cmdSetExtras s r
  else if c = 0x50 then cmdEnterProg s r
  else if c = 0x51 then cmdLeaveProg s r
  else if c = 0x53 then cmdSync s r
  else if c = 0x30 then cmdSync s r
  else if c = 0x31 then cmdSignOn s r
  else if c = 0x20 then noSyncRes s r
  else cmdUnknown s r

/-- One iteration of `loop` when a byte is available: consume the
command byte and dispatch. -/
def bridgeStep (o : Oracle) (s : BState) : List Nat → StepRes
  | [] => ⟨s, [], [], []⟩
  | c :: r => dispatch o s (c % 256) r

/-- Iterate the bridge over its input for `n` transactions,
accumulating reply bytes and sequencer calls. -/
def bridgeRun (o : Oracle) : Nat → BState → List Nat → BState × List Nat × List HvpCall
  | 0, s, _ => (s, [], [])
  | n + 1, s, input =>
    match input with
    | [] => (s, [], [])
    | c :: r =>
      let st := dispatch o s (c % 256) r
      let t := bridgeRun o n st.state st.rest
      (t.1, st.out ++ t.2.1, st.calls ++ t.2.2)

/-- Pin-level effect of a sequencer call.  The mode transitions drive
the lines as modelled above; the custom front-end always finishes with
the standby sequence; the data-transfer operations finish with the
data and clock lines restored low and change no pin direction, so at
the granularity of settled line states they leave the pin record
unchanged. -/
def applyCall (p : Pins) : HvpCall → Pins
  | HvpCall.standby => hvpStandbyMode p
  | HvpCall.progMode => hvpProgramMode p
  | HvpCall.custom => hvpStandbyMode p
  | _ => p

/-- A concrete quiescent target: every read samples zero bytes. -/
def oracle0 : Oracle := fun _ => []

/-- A concrete initial bridge state (mode off, cursor 0, zeroed
records, zeroed 258-byte buffer). -/
def state0 : BState :=
  ⟨0, 0, List.replicate 20 0, List.replicate 5 0, List.replicate 258 0⟩

/-- A concrete initial pin record (all lines inputs, latches low). -/
def pins0 : Pins := ⟨⟨false, false⟩, ⟨false, false⟩, ⟨false, false⟩,
  ⟨false, false⟩, ⟨false, false⟩, ⟨false, false⟩⟩

/-- `n` consecutive leave-programming-mode frames on the wire. -/
def leaveCmds (n : Nat) : List Nat := (List.replicate n [0x51, 0x20]).flatten

/-- The observable outcome guaranteed by the abort path: exactly the
single no-sync token 0x15 was emitted, the programming-mode flag is
off, and no input bytes remain for the transaction. -/
def timeoutAborted (res : StepRes) : Prop :=
  res.out = [0x15] ∧ res.state.mode = 0 ∧ res.rest = []

/-! ## Claims C1 and C2: sequencer-level properties -/

/-- Claim C1: every fuse/lock write transmits the requested byte
bitwise-ORed with the complement of that field's valid-bit mask (low
fuse mask 0xFF gives OR 0x00, high fuse 0xFF gives OR 0x00, extended
fuse 0x01 gives OR 0xFE, lock 0x03 gives OR 0xFC); in particular
writing 0x00 to the extended fuse transmits 0xFE; and every fuse/lock
read returns the sampled device byte unchanged, with no mask applied. -/
theorem fuse_lock_mask_semantics (b : Nat) (t : Nat → Nat) :
    ((hvpWrFuseBitsLO b).getD 1 (0, 0)).1 = (b % 256) ||| 0x00
    ∧ ((hvpWrFuseBitsHI b).getD 1 (0, 0)).1 = (b % 256) ||| 0x00
    ∧ ((hvpWrFuseBitsEX b).getD 1 (0, 0)).1 = (b % 256) ||| 0xfe
    ∧ ((hvpWrLockBits b).getD 1 (0, 0)).1 = (b % 256) ||| 0xfc
    ∧ ((hvpWrFuseBitsEX 0).getD 1 (0, 0)).1 = 0xfe
    ∧ (hvpRdFuseBitsLO t).1 = t 2 % 256
    ∧ (hvpRdFuseBitsHI t).1 = t 2 % 256
    ∧ (hvpRdFuseBitsEX t).1 = t 2 % 256
    ∧ (hvpRdLockBits t).1 = t 2 % 256 := by
  have h1 : compl8 FUSEL_MASK = 0x00 := by decide
  have h2 : compl8 FUSEH_MASK = 0x00 := by decide
  have h3 : compl8 FUSEE_MASK = 0xfe := by decide
  have h4 : compl8 LOCKB_MASK = 0xfc := by decide
  refine ⟨?_, ?_, ?_, ?_, ?_, rfl, rfl, rfl, rfl⟩ <;>
    simp [hvpWrFuseBitsLO, hvpWrFuseBitsHI, hvpWrFuseBitsEX, hvpWrLockBits, h1, h2, h3, h4]

/-- The flash write loop decomposes into one block per word: the five
data transfers, then the commit sequence exactly when the low address
byte fills the page mask or the word is the last. -/
theorem hvpWrFlashAux_spec (W : Nat) :
    ∀ (addr : Nat) (d : Nat → Nat), addr < 65536 →
      hvpWrFlashAux addr W d =
        ((List.range W).map (fun i =>
          specFlashBlock ((addr + i) % 65536) (decide (i = W - 1))
            (d (2 * i)) (d (2 * i + 1)))).flatten := by
  induction W with
  | zero => intro addr d _; simp [hvpWrFlashAux]
  | succ W ih =>
    intro addr d h
    rw [hvpWrFlashAux, List.range_succ_eq_map, List.map_cons, List.flatten_cons,
      List.map_map, ih ((addr + 1) % 65536) (fun k => d (k + 2)) (Nat.mod_lt _ (by norm_num))]
    congr 1
    · have ha : (addr + 0) % 65536 = addr := by
        rw [Nat.add_zero, Nat.mod_eq_of_lt h]
      simp only [ha, Nat.mul_zero, Nat.zero_add, Nat.add_sub_cancel, specFlashBlock,
        hvp_eop, FLASH_PAGE_MASK]
      congr 1
      apply if_congr _ rfl rfl
      simp only [Bool.or_eq_true, beq_iff_eq, decide_eq_true_iff]
      exact or_congr Iff.rfl eq_comm
    · congr 1
      apply List.map_congr_left
      intro i hi
      have hiW : i < W := List.mem_range.mp hi
      simp only [Function.comp_apply]
      have e1 : ((addr + 1) % 65536 + i) % 65536 = (addr + Nat.succ i) % 65536 := by
        rw [Nat.mod_add_mod]
        congr 1
        omega
      have e2 : decide (i = W - 1) = decide (Nat.succ i = W + 1 - 1) :=
        decide_eq_decide.mpr (by omega)
      have e3 : d (2 * i + 2) = d (2 * Nat.succ i) := congrArg d (by omega)
      have e4 : d (2 * i + 1 + 2) = d (2 * Nat.succ i + 1) := congrArg d (by omega)
      rw [e1, e2, e3, e4]

/-- Claim C2: for every flash page write, the transfer trace is the
command load, then per word the data transfers followed by a
page-commit sequence if and only if the low address byte ANDed with
0x1F equals 0x1F or the word is the last of the request, then the
trailing command load; and a 3-word request at word addresses
0x1E, 0x1F, 0x20 issues exactly two commits. -/
theorem flash_page_commit_policy :
    (∀ (addr W : Nat) (d : Nat → Nat),
      hvpWrFlash addr W d =
        (0x10, 0x4c) ::
          (((List.range W).map (fun i =>
            specFlashBlock ((addr % 65536 + i) % 65536) (decide (i = W - 1))
              (d (2 * i)) (d (2 * i + 1)))).flatten ++ [(0x00, 0x4c)]))
    ∧ commitCount (hvpWrFlash 0x1e 3 (fun _ => 0)) = 2 := by
  constructor
  · intro addr W d
    rw [hvpWrFlash, hvpWrFlashAux_spec W (addr % 65536) d (Nat.mod_lt _ (by norm_num))]
  · decide

/-! ## Helper lemmas shared by the bridge claims -/

/-- `i16` is the identity on small non-negative values. -/
theorem i16_small (n : Nat) (h : n ≤ 32767) : i16 n = n := by
  unfold i16
  omega

/-- `u16` is `Int.toNat` on values already in 16-bit range. -/
theorem u16_small (x : Int) (h1 : 0 ≤ x) (h2 : x < 65536) : u16 x = x.toNat := by
  unfold u16
  omega

/-- `getbn` on an input holding exactly the requested bytes: the last
byte is returned as the status byte, all bytes are stored, and the
tail is left unconsumed. -/
theorem getbn_full (bs : List Nat) (z : Nat) (r : List Nat) :
    getbn (bs.length + 1) (bs ++ z :: r)
      = (some (z % 256), bs.map (· % 256) ++ [z % 256], r) := by
  induction bs with
  | nil => rfl
  | cons b bs ih => simp [getbn, ih]

/-- `getbn` on an input shorter than the requested count: every
available byte is stored, the input is exhausted, and the status is
the timeout. -/
theorem getbn_short (n : Nat) (bs : List Nat) (h : bs.length < n) :
    getbn n bs = (none, bs.map (· % 256), []) := by
  induction bs generalizing n with
  | nil =>
    rcases n with _ | m
    · omega
    · rfl
  | cons b t ih =>
    rcases n with _ | m
    · omega
    · have ht : t.length < m := by
        simp at h
        omega
      have hm : ¬ m = 0 := by omega
      simp [getbn, ih m ht, hm]

/-- The standby pin sequence is idempotent on settled line states. -/
theorem standby_idem (p : Pins) : hvpStandbyMode (hvpStandbyMode p) = hvpStandbyMode p := rfl

/-- One `loop` iteration on an in-range command byte dispatches on it. -/
theorem bridgeStep_cons (o : Oracle) (s : BState) (c : Nat) (r : List Nat) (hc : c < 256) :
    bridgeStep o s (c :: r) = dispatch o s c r := by
  rw [show bridgeStep o s (c :: r) = dispatch o s (c % 256) r from rfl, Nat.mod_eq_of_lt hc]

/-- The branch each command byte selects in the dispatch chain. -/
theorem dispatch_loadAddress (o : Oracle) (s : BState) (r : List Nat) :
    dispatch o s 0x55 r = cmdLoadAddress s r := rfl

theorem dispatch_progPage (o : Oracle) (s : BState) (r : List Nat) :
    dispatch o s 0x64 r = cmdProgPage s r := rfl

theorem dispatch_readPage (o : Oracle) (s : BState) (r : List Nat) :
    dispatch o s 0x74 r = cmdReadPage o s r := rfl

theorem dispatch_chipErase (o : Oracle) (s : BState) (r : List Nat) :
    dispatch o s 0x52 r = cmdChipErase s r := rfl

theorem dispatch_readSign (o : Oracle) (s : BState) (r : List Nat) :
    dispatch o s 0x75 r = cmdReadSign o s r := rfl

theorem dispatch_progFuse (o : Oracle) (s : BState) (r : List Nat) :
    dispatch o s 0x62 r = cmdProgFuse s r := rfl

theorem dispatch_progFuseExt (o : Oracle) (s : BState) (r : List Nat) :
    dispatch o s 0x65 r = cmdProgFuseExt s r := rfl

theorem dispatch_readFuse (o : Oracle) (s : BState) (r : List Nat) :
    dispatch o s 0x72 r = cmdReadFuse o s r := rfl

theorem dispatch_readFuseExt (o : Oracle) (s : BState) (r : List Nat) :
    dispatch o s 0x77 r = cmdReadFuseExt o s r := rfl

theorem dispatch_readLock (o : Oracle) (s : BState) (r : List Nat) :
    dispatch o s 0x73 r = cmdReadLock o s r := rfl

theorem dispatch_progLock (o : Oracle) (s : BState) (r : List Nat) :
    dispatch o s 0x63 r = cmdProgLock s r := rfl

theorem dispatch_univ (o : Oracle) (s : BState) (r : List Nat) :
    dispatch o s 0x56 r = cmdUniversal o s r := rfl

theorem dispatch_progFlash (o : Oracle) (s : BState) (r : List Nat) :
    dispatch o s 0x60 r = cmdProgFlash s r := rfl

theorem dispatch_progData (o : Oracle) (s : BState) (r : List Nat) :
    dispatch o s 0x61 r = cmdProgData s r := rfl

theorem dispatch_readFlash (o : Oracle) (s : BState) (r : List Nat) :
    dispatch o s 0x70 r = cmdReadFlash o s r := rfl

theorem dispatch_readData (o : Oracle) (s : BState) (r : List Nat) :
    dispatch o s 0x71 r = cmdReadData o s r := rfl

theorem dispatch_getParam (o : Oracle) (s : BState) (r : List Nat) :
    dispatch o s 0x41 r = cmdGetParam s r := rfl

theorem dispatch_setParam (o : Oracle) (s : BState) (r : List Nat) :
    dispatch o s 0x40 r = cmdSetParam s r := rfl

theorem dispatch_setDevice (o : Oracle) (s : BState) (r : List Nat) :
    dispatch o s 0x42 r = cmdSetDevice s r := rfl

theorem dispatch_setExtras (o : Oracle) (s : BState) (r : List Nat) :
    dispatch o s 0x45 r = cmdSetExtras s r := rfl

theorem dispatch_enterProg (o : Oracle) (s : BState) (r : List Nat) :
    dispatch o s 0x50 r = cmdEnterProg s r := rfl

theorem dispatch_leaveProg (o : Oracle) (s : BState) (r : List Nat) :
    dispatch o s 0x51 r = cmdLeaveProg s r := rfl

theorem dispatch_autoinc (o : Oracle) (s : BState) (r : List Nat) :
    dispatch o s 0x53 r = cmdSync s r := rfl

theorem dispatch_getSync (o : Oracle) (s : BState) (r : List Nat) :
    dispatch o s 0x30 r = cmdSync s r := rfl

theorem dispatch_signOn (o : Oracle) (s : BState) (r : List Nat) :
    dispatch o s 0x31 r = cmdSignOn s r := rfl

theorem dispatch_sentinel (o : Oracle) (s : BState) (r : List Nat) :
    dispatch o s 0x20 r = noSyncRes s r := rfl

/-! ## Claim C5: read-data-memory command -/

/-- Claim C5 (divergence witness): with programming mode on and the
cursor at 5, the read-data-memory command 0x71 issues a flash read
(`hvpRdFlash` at the cursor), not a persistent-data (EEPROM) read,
replies in-sync, byte, ok, and advances the cursor by one; the call it
makes is not an EEPROM read for any arguments. -/
theorem read_data_memory_uses_flash :
    (bridgeStep oracle0 { state0 with mode := 1, address := 5 } [0x71, 0x20]).calls
        = [HvpCall.rdFlash 5 1]
    ∧ (bridgeStep oracle0 { state0 with mode := 1, address := 5 } [0x71, 0x20]).out
        = [0x14, 0x00, 0x10]
    ∧ (bridgeStep oracle0 { state0 with mode := 1, address := 5 } [0x71, 0x20]).state.address
        = 6
    ∧ ∀ (a n : Nat), HvpCall.rdFlash 5 1 ≠ HvpCall.rdEE a n := by
  refine ⟨by decide, by decide, by decide, ?_⟩
  intro a n h
  cases h

/-! ## Claim C7: universal command -/

/-- Claim C7: every recognized read tuple returns the byte read from
the target; every recognized write or erase tuple performs the
operation and returns 0; every unrecognized tuple returns 0 and
performs no hardware operation; the tuple AC E0 00 07 writes lock
bits 0x07 and returns 0. -/
theorem universal_command_semantics (o : Oracle) (r2 r3 : Nat) :
    universal o 0x58 0x00 r2 r3 = (rd1 o HvpCall.rdLock, [HvpCall.rdLock])
    ∧ universal o 0x50 0x00 r2 r3 = (rd1 o HvpCall.rdFuseLO, [HvpCall.rdFuseLO])
    ∧ universal o 0x58 0x08 r2 r3 = (rd1 o HvpCall.rdFuseHI, [HvpCall.rdFuseHI])
    ∧ universal o 0x50 0x08 r2 r3 = (rd1 o HvpCall.rdFuseEX, [HvpCall.rdFuseEX])
    ∧ universal o 0xac 0xe0 r2 r3 = (0, [HvpCall.wrLock (r3 % 256)])
    ∧ universal o 0xac 0xa0 r2 r3 = (0, [HvpCall.wrFuseLO (r3 % 256)])
    ∧ universal o 0xac 0xa8 r2 r3 = (0, [HvpCall.wrFuseHI (r3 % 256)])
    ∧ universal o 0xac 0xa4 r2 r3 = (0, [HvpCall.wrFuseEX (r3 % 256)])
    ∧ universal o 0x30 0x00 0 r3 = (rd1 o HvpCall.sig0, [HvpCall.sig0])
    ∧ universal o 0x30 0x00 1 r3 = (rd1 o HvpCall.sig1, [HvpCall.sig1])
    ∧ universal o 0x30 0x00 2 r3 = (rd1 o HvpCall.sig2, [HvpCall.sig2])
    ∧ universal o 0xac 0x80 r2 r3 = (0, [HvpCall.chipErase])
    ∧ (∀ r0 r1, (r0 % 256) * 256 + (r1 % 256) ∉
        ([0x5800, 0x5000, 0x5808, 0x5008, 0xace0, 0xaca0, 0xaca8, 0xaca4,
          0x3000, 0xac80] : List Nat) →
        universal o r0 r1 r2 r3 = (0, []))
    ∧ (2 < r2 % 256 → universal o 0x30 0x00 r2 r3 = (0, []))
    ∧ universal o 0xac 0xe0 0x00 0x07 = (0, [HvpCall.wrLock 0x07]) := by
  refine ⟨by norm_num [universal], by norm_num [universal], by norm_num [universal],
    by norm_num [universal], by norm_num [universal], by norm_num [universal],
    by norm_num [universal], by norm_num [universal], by norm_num [universal],
    by norm_num [universal], by norm_num [universal], by norm_num [universal],
    ?_, ?_, by norm_num [universal]⟩
  · intro r0 r1 hmem
    simp only [List.mem_cons, List.not_mem_nil, or_false, not_or] at hmem
    obtain ⟨n1, n2, n3, n4, n5, n6, n7, n8, n9, n10⟩ := hmem
    simp only [universal]
    rw [if_neg n1, if_neg n2, if_neg n3, if_neg n4, if_neg n5, if_neg n6, if_neg n7,
      if_neg n8, if_neg n9, if_neg n10]
  · intro h
    simp only [universal]
    norm_num
    rw [if_neg (by omega : ¬(r2 % 256 = 0)), if_neg (by omega : ¬(r2 % 256 = 1)),
      if_neg (by omega : ¬(r2 % 256 = 2))]

/-- Witness for the hypothesis-bearing parts of
`universal_command_semantics`, at the concrete tuple (0,0,9,7): key
0x0000 is unrecognized and signature index 9 falls through. -/
theorem universal_command_semantics_witness :
    universal oracle0 0x00 0x00 9 7 = (0, [])
    ∧ universal oracle0 0x30 0x00 9 7 = (0, []) := by
  obtain ⟨-, -, -, -, -, -, -, -, -, -, -, -, hu, hs, -⟩ :=
    universal_command_semantics oracle0 9 7
  exact ⟨hu 0 0 (by decide), hs (by decide)⟩

/-! ## Claim C4: mid-transaction transport timeout -/

/-- Claim C4 counterexample: a timeout right after the chip-erase
command byte forces programming mode off but then emits the no-sync
token 0x15 (the abort path falls through into the no-sync reply), so
bytes are sent after the abort, contrary to the claim. -/
theorem timeout_emits_nosync :
    (bridgeStep oracle0 { state0 with mode := 1 } [0x52]).state.mode = 0
    ∧ (bridgeStep oracle0 { state0 with mode := 1 } [0x52]).out = [0x15]
    ∧ (bridgeStep oracle0 { state0 with mode := 1 } [0x52]).out ≠ [] := by
  refine ⟨by decide, by decide, by decide⟩

/-- Timeout at the first payload byte of each command: the result is
the abort path (for the record-setting commands, with the identifying
field zeroed first; for leave-programming-mode, after its own standby
call). -/
theorem cmdChipErase_nil (s : BState) : cmdChipErase s [] = abortRes s := rfl

theorem cmdReadSign_nil (o : Oracle) (s : BState) : cmdReadSign o s [] = abortRes s := rfl

theorem cmdProgFuse_nil (s : BState) : cmdProgFuse s [] = abortRes s := rfl

theorem cmdProgFuseExt_nil (s : BState) : cmdProgFuseExt s [] = abortRes s := rfl

theorem cmdReadFuse_nil (o : Oracle) (s : BState) : cmdReadFuse o s [] = abortRes s := rfl

theorem cmdReadFuseExt_nil (o : Oracle) (s : BState) : cmdReadFuseExt o s [] = abortRes s := rfl

theorem cmdReadLock_nil (o : Oracle) (s : BState) : cmdReadLock o s [] = abortRes s := rfl

theorem cmdProgLock_nil (s : BState) : cmdProgLock s [] = abortRes s := rfl

theorem cmdLoadAddress_nil (s : BState) : cmdLoadAddress s [] = abortRes s := rfl

theorem cmdUniversal_nil (o : Oracle) (s : BState) : cmdUniversal o s [] = abortRes s := rfl

theorem cmdProgFlash_nil (s : BState) : cmdProgFlash s [] = abortRes s := rfl

theorem cmdProgData_nil (s : BState) : cmdProgData s [] = abortRes s := rfl

theorem cmdReadFlash_nil (o : Oracle) (s : BState) : cmdReadFlash o s [] = abortRes s := rfl

theorem cmdReadData_nil (o : Oracle) (s : BState) : cmdReadData o s [] = abortRes s := rfl

theorem cmdProgPage_nil (s : BState) : cmdProgPage s [] = abortRes s := rfl

theorem cmdReadPage_nil (o : Oracle) (s : BState) : cmdReadPage o s [] = abortRes s := rfl

theorem cmdGetParam_nil (s : BState) : cmdGetParam s [] = abortRes s := rfl

theorem cmdSetParam_nil (s : BState) : cmdSetParam s [] = abortRes s := rfl

theorem cmdSetDevice_nil (s : BState) :
    cmdSetDevice s [] = abortRes { s with device := s.device.set 0 0 } := rfl

theorem cmdSetExtras_nil (s : BState) :
    cmdSetExtras s [] = abortRes { s with extras := s.extras.set 0 0 } := rfl

theorem cmdEnterProg_nil (s : BState) : cmdEnterProg s [] = abortRes s := rfl

theorem cmdLeaveProg_nil (s : BState) :
    cmdLeaveProg s []
      = ⟨{ s with mode := 0 }, [0x15], [HvpCall.standby, HvpCall.standby], []⟩ := rfl

theorem cmdSync_nil (s : BState) : cmdSync s [] = abortRes s := rfl

theorem cmdSignOn_nil (s : BState) : cmdSignOn s [] = abortRes s := rfl

theorem cmdUnknown_nil (s : BState) : cmdUnknown s [] = abortRes s := rfl

/-- A too-short payload for the page program aborts after storing the
received bytes. -/
theorem progPageGo_timeout (s : BState) (v : Int) (r : List Nat)
    (h : r.length < u16 (v + 2)) :
    progPageGo s v r
      = abortRes { s with buffer := setBytes s.buffer 0 (r.map (· % 256)) } := by
  unfold progPageGo
  rw [getbn_short _ r h]

/-- A too-short tag/sentinel pair for the page read aborts after
storing the received bytes. -/
theorem readPageGo_timeout (o : Oracle) (s : BState) (v : Int) (r : List Nat)
    (h : r.length < 2) :
    readPageGo o s v r
      = abortRes { s with buffer := setBytes s.buffer 0 (r.map (· % 256)) } := by
  unfold readPageGo
  rw [getbn_short 2 r h]

/-- Claim C4 amended: whenever a per-byte serial read times out after
a transaction's command byte has been consumed — at the first
post-command read of any command, after any strict prefix of a payload,
at the sentinel read of the empty-reply commands, or at any read
position of the page commands whose length guard passed — the bridge
forces programming mode off and emits exactly the single no-sync token
0x15 (the abort path falls through into the no-sync reply), with the
input exhausted.  The out-of-protocol escape 0x5A and the bare
sentinel 0x20 never reach a mid-transaction read. -/
theorem midtransaction_timeout_aborts (o : Oracle) (s : BState) :
    (∀ c, c < 256 → c ∉ ([0x5a, 0x20] : List Nat) →
      timeoutAborted (bridgeStep o s [c]))
    ∧ (∀ bs : List Nat, bs.length ≤ 2 → timeoutAborted (bridgeStep o s (0x55 :: bs)))
    ∧ (∀ bs : List Nat, bs.length < 2 → timeoutAborted (bridgeStep o s (0x63 :: bs)))
    ∧ (∀ bs : List Nat, bs.length < 2 → timeoutAborted (bridgeStep o s (0x61 :: bs)))
    ∧ (∀ bs : List Nat, bs.length < 2 → timeoutAborted (bridgeStep o s (0x41 :: bs)))
    ∧ (∀ bs : List Nat, bs.length < 3 → timeoutAborted (bridgeStep o s (0x62 :: bs)))
    ∧ (∀ bs : List Nat, bs.length < 3 → timeoutAborted (bridgeStep o s (0x60 :: bs)))
    ∧ (∀ bs : List Nat, bs.length < 4 → timeoutAborted (bridgeStep o s (0x65 :: bs)))
    ∧ (∀ bs : List Nat, bs.length < 5 → timeoutAborted (bridgeStep o s (0x56 :: bs)))
    ∧ (∀ bs : List Nat, bs.length ≤ 2 → timeoutAborted (bridgeStep o s (0x40 :: bs)))
    ∧ (∀ bs : List Nat, bs.length ≤ 20 → timeoutAborted (bridgeStep o s (0x42 :: bs)))
    ∧ (∀ bs : List Nat, bs.length ≤ 5 → timeoutAborted (bridgeStep o s (0x45 :: bs)))
    ∧ (∀ l1, timeoutAborted (bridgeStep o s [0x64, l1]))
    ∧ (∀ l1, timeoutAborted (bridgeStep o s [0x74, l1]))
    ∧ (∀ (l1 l2 : Nat) (bs : List Nat), l1 < 256 → l2 < 256 →
        i16 (256 * (l1 : Int) + (l2 : Int)) ≤ 256 →
        bs.length < u16 (i16 (256 * (l1 : Int) + (l2 : Int)) + 2) →
        timeoutAborted (bridgeStep o s (0x64 :: l1 :: l2 :: bs)))
    ∧ (∀ (l1 l2 : Nat) (bs : List Nat), l1 < 256 → l2 < 256 →
        i16 (256 * (l1 : Int) + (l2 : Int)) ≤ 256 →
        bs.length < 2 →
        timeoutAborted (bridgeStep o s (0x74 :: l1 :: l2 :: bs))) := by
  refine ⟨?_, ?_, ?_, ?_, ?_, ?_, ?_, ?_, ?_, ?_, ?_, ?_, ?_, ?_, ?_, ?_⟩
  · -- timeout at the first read after the command byte, every command
    intro c hc hz
    simp only [List.mem_cons, List.not_mem_nil, or_false, not_or] at hz
    obtain ⟨h5a, h20⟩ := hz
    simp only [bridgeStep, Nat.mod_eq_of_lt hc]
    by_cases e1 : c = 0x52
    · subst e1
      exact ⟨rfl, rfl, rfl⟩
    by_cases e2 : c = 0x75
    · subst e2
      exact ⟨rfl, rfl, rfl⟩
    by_cases e3 : c = 0x62
    · subst e3
      exact ⟨rfl, rfl, rfl⟩
    by_cases e4 : c = 0x65
    · subst e4
      exact ⟨rfl, rfl, rfl⟩
    by_cases e5 : c = 0x72
    · subst e5
      exact ⟨rfl, rfl, rfl⟩
    by_cases e6 : c = 0x77
    · subst e6
      exact ⟨rfl, rfl, rfl⟩
    by_cases e7 : c = 0x73
    · subst e7
      exact ⟨rfl, rfl, rfl⟩
    by_cases e8 : c = 0x63
    · subst e8
      exact ⟨rfl, rfl, rfl⟩
    by_cases e9 : c = 0x55
    · subst e9
      exact ⟨rfl, rfl, rfl⟩
    by_cases e10 : c = 0x56
    · subst e10
      exact ⟨rfl, rfl, rfl⟩
    by_cases e11 : c = 0x60
    · subst e11
      exact ⟨rfl, rfl, rfl⟩
    by_cases e12 : c = 0x61
    · subst e12
      exact ⟨rfl, rfl, rfl⟩
    by_cases e13 : c = 0x70
    · subst e13
      exact ⟨rfl, rfl, rfl⟩
    by_cases e14 : c = 0x71
    · subst e14
      exact ⟨rfl, rfl, rfl⟩
    by_cases e15 : c = 0x64
    · subst e15
      exact ⟨rfl, rfl, rfl⟩
    by_cases e16 : c = 0x74
    · subst e16
      exact ⟨rfl, rfl, rfl⟩
    by_cases e17 : c = 0x41
    · subst e17
      exact ⟨rfl, rfl, rfl⟩
    by_cases e18 : c = 0x40
    · subst e18
      exact ⟨rfl, rfl, rfl⟩
    by_cases e19 : c = 0x42
    · subst e19
      exact ⟨rfl, rfl, rfl⟩
    by_cases e20 : c = 0x45
    · subst e20
      exact ⟨rfl, rfl, rfl⟩
    by_cases e21 : c = 0x50
    · subst e21
      exact ⟨rfl, rfl, rfl⟩
    by_cases e22 : c = 0x51
    · subst e22
      exact ⟨rfl, rfl, rfl⟩
    by_cases e23 : c = 0x53
    · subst e23
      exact ⟨rfl, rfl, rfl⟩
    by_cases e24 : c = 0x30
    · subst e24
      exact ⟨rfl, rfl, rfl⟩
    by_cases e25 : c = 0x31
    · subst e25
      exact ⟨rfl, rfl, rfl⟩
    unfold dispatch
    rw [if_neg h5a, if_neg e1, if_neg e2, if_neg e3, if_neg e4, if_neg e5, if_neg e6, if_neg e7, if_neg e8, if_neg e9, if_neg e10, if_neg e11, if_neg e12, if_neg e13, if_neg e14, if_neg e15, if_neg e16, if_neg e17, if_neg e18, if_neg e19, if_neg e20, if_neg e21, if_neg e22, if_neg e23, if_neg e24, if_neg e25, if_neg h20]
    exact ⟨rfl, rfl, rfl⟩
  · intro bs hbs
    rcases bs with _ | ⟨lo, _ | ⟨hi, _ | ⟨x, t⟩⟩⟩
    · exact ⟨rfl, rfl, rfl⟩
    · exact ⟨rfl, rfl, rfl⟩
    · exact ⟨rfl, rfl, rfl⟩
    · simp at hbs
  · intro bs hbs
    rw [bridgeStep_cons o s 0x63 _ (by norm_num), dispatch_progLock]
    simp [cmdProgLock, getbn_short 2 bs hbs, timeoutAborted, abortRes]
  · intro bs hbs
    rw [bridgeStep_cons o s 0x61 _ (by norm_num), dispatch_progData]
    simp [cmdProgData, getbn_short 2 bs hbs, timeoutAborted, abortRes]
  · intro bs hbs
    rw [bridgeStep_cons o s 0x41 _ (by norm_num), dispatch_getParam]
    simp [cmdGetParam, getbn_short 2 bs hbs, timeoutAborted, abortRes]
  · intro bs hbs
    rw [bridgeStep_cons o s 0x62 _ (by norm_num), dispatch_progFuse]
    simp [cmdProgFuse, getbn_short 3 bs hbs, timeoutAborted, abortRes]
  · intro bs hbs
    rw [bridgeStep_cons o s 0x60 _ (by norm_num), dispatch_progFlash]
    simp [cmdProgFlash, getbn_short 3 bs hbs, timeoutAborted, abortRes]
  · intro bs hbs
    rw [bridgeStep_cons o s 0x65 _ (by norm_num), dispatch_progFuseExt]
    simp [cmdProgFuseExt, getbn_short 4 bs hbs, timeoutAborted, abortRes]
  · intro bs hbs
    rw [bridgeStep_cons o s 0x56 _ (by norm_num), dispatch_univ]
    simp [cmdUniversal, getbn_short 5 bs hbs, timeoutAborted, abortRes]
  · intro bs hbs
    rw [bridgeStep_cons o s 0x40 _ (by norm_num), dispatch_setParam]
    rcases Nat.lt_or_ge bs.length 2 with hlt | hge
    · simp [cmdSetParam, getbn_short 2 bs hlt, timeoutAborted, abortRes]
    · have hl : bs.length = 2 := le_antisymm hbs hge
      rcases List.eq_nil_or_concat bs with rfl | ⟨t, z, rfl⟩
      · simp at hl
      · have ht : (2 : Nat) = t.length + 1 := by
          simp at hl
          omega
        simp only [cmdSetParam, List.concat_eq_append]
        rw [ht, getbn_full t z []]
        simp [emptyReply, timeoutAborted]
  · intro bs hbs
    rw [bridgeStep_cons o s 0x42 _ (by norm_num), dispatch_setDevice]
    rcases Nat.lt_or_ge bs.length 20 with hlt | hge
    · simp [cmdSetDevice, getbn_short 20 bs hlt, timeoutAborted, abortRes]
    · have hl : bs.length = 20 := le_antisymm hbs hge
      rcases List.eq_nil_or_concat bs with rfl | ⟨t, z, rfl⟩
      · simp at hl
      · have ht : (20 : Nat) = t.length + 1 := by
          simp at hl
          omega
        simp only [cmdSetDevice, List.concat_eq_append]
        rw [ht, getbn_full t z []]
        simp [emptyReply, timeoutAborted]
  · intro bs hbs
    rw [bridgeStep_cons o s 0x45 _ (by norm_num), dispatch_setExtras]
    rcases Nat.lt_or_ge bs.length 5 with hlt | hge
    · simp [cmdSetExtras, getbn_short 5 bs hlt, timeoutAborted, abortRes]
    · have hl : bs.length = 5 := le_antisymm hbs hge
      rcases List.eq_nil_or_concat bs with rfl | ⟨t, z, rfl⟩
      · simp at hl
      · have ht : (5 : Nat) = t.length + 1 := by
          simp at hl
          omega
        simp only [cmdSetExtras, List.concat_eq_append]
        rw [ht, getbn_full t z []]
        simp [emptyReply, timeoutAborted]
  · intro l1
    exact ⟨rfl, rfl, rfl⟩
  · intro l1
    exact ⟨rfl, rfl, rfl⟩
  · intro l1 l2 bs hl1 hl2 hv hb
    rw [bridgeStep_cons o s 0x64 _ (by norm_num), dispatch_progPage]
    simp only [cmdProgPage, Nat.mod_eq_of_lt hl1, Nat.mod_eq_of_lt hl2]
    rw [if_neg (not_lt.mpr hv)]
    rw [progPageGo_timeout s _ bs hb]
    simp [timeoutAborted, abortRes]
  · intro l1 l2 bs hl1 hl2 hv hb
    rw [bridgeStep_cons o s 0x74 _ (by norm_num), dispatch_readPage]
    simp only [cmdReadPage, Nat.mod_eq_of_lt hl1, Nat.mod_eq_of_lt hl2]
    rw [if_neg (not_lt.mpr hv)]
    rw [readPageGo_timeout o s _ bs hb]
    simp [timeoutAborted, abortRes]

/-- Witness for `midtransaction_timeout_aborts`: a timeout right after
the chip-erase command byte, after one payload byte of the two-fuse
program, after the low address byte of load-address, after all twenty
record bytes of set-device (at its sentinel read), and inside the
payload of an accepted page program. -/
theorem midtransaction_timeout_aborts_witness :
    timeoutAborted (bridgeStep oracle0 state0 [0x52])
    ∧ timeoutAborted (bridgeStep oracle0 state0 [0x62, 0x01])
    ∧ timeoutAborted (bridgeStep oracle0 state0 [0x55, 0x07])
    ∧ timeoutAborted (bridgeStep oracle0 state0 (0x42 :: List.replicate 20 0x11))
    ∧ timeoutAborted (bridgeStep oracle0 state0 [0x64, 0x00, 0x04, 0x46, 0xaa]) := by
  obtain ⟨h1, h55, h63, h61, h41, h62, h60, h65, h56, h40, h42, h45, h64a, h74a, h64, h74⟩ :=
    midtransaction_timeout_aborts oracle0 state0
  refine ⟨h1 0x52 (by norm_num) (by norm_num), h62 [0x01] (by norm_num),
    h55 [0x07] (by norm_num), h42 (List.replicate 20 0x11) (by simp), ?_⟩
  exact h64 0 4 [0x46, 0xaa] (by norm_num) (by norm_num) (by decide) (by decide)

/-! ## Claim C10: page-length guard and buffer capacity -/

set_option maxHeartbeats 1600000 in
/-- Claim C10 (divergence witness): the page-read request with declared
length 0x8000 (length bytes 0x80 0x00) is accepted — the in-sync reply
begins, not the no-sync rejection the over-length guard is documented
to produce — because 256·0x80 overflows the Uno's 16-bit signed `int`
to −32768 and the `v > 256` check passes; the flash read is then asked
for 49153 words, i.e. 98306 bytes, far beyond the 258-byte transfer
buffer. -/
theorem page_read_length_overflow :
    (bridgeStep oracle0 { state0 with mode := 1 } [0x74, 0x80, 0x00, 0x46, 0x20]).calls
        = [HvpCall.rdFlash 0 49153]
    ∧ (bridgeStep oracle0 { state0 with mode := 1 } [0x74, 0x80, 0x00, 0x46, 0x20]).out.headD 0
        = 0x14
    ∧ (bridgeStep oracle0 { state0 with mode := 1 } [0x74, 0x80, 0x00, 0x46, 0x20]).state.address
        = 49153
    ∧ 258 < 2 * 49153 := by
  refine ⟨by decide, by decide, by decide, by decide⟩

/-! ## Claim C8: wire-field endianness -/

/-- Claim C8 counterexample: the load-address operand bytes 0x01 0x02
set the cursor to 0x0201, not the big-endian 0x0102: the operand is
read low byte first. -/
theorem load_address_little_endian :
    (bridgeStep oracle0 state0 [0x55, 0x01, 0x02, 0x20]).state.address = 0x0201
    ∧ (bridgeStep oracle0 state0 [0x55, 0x01, 0x02, 0x20]).state.address ≠ 0x0102 := by
  refine ⟨by decide, by decide⟩

/-- Claim C8 amended: the 16-bit length field of the page commands
0x64/0x74 is decoded big-endian (high byte first, value 256·l1 + l2 —
both in the accepted EEPROM page read, whose sequencer call carries
that length, and in the over-length rejection guard), while the 16-bit
operand of the load-address command 0x55 is decoded little-endian (low
byte first, value lo + 256·hi). -/
theorem wire_field_endianness (o : Oracle) (s : BState) (r : List Nat)
    (lo hi l1 l2 : Nat) (hlo : lo < 256) (hhi : hi < 256)
    (hl1 : l1 < 256) (hl2 : l2 < 256) (hm : ¬ s.mode = 0) (hlen : 256 * l1 + l2 ≤ 256)
    (hbuf : 2 ≤ s.buffer.length) :
    (bridgeStep o s (0x55 :: lo :: hi :: 0x20 :: r)).state.address = lo + 256 * hi
    ∧ (bridgeStep o s (0x74 :: l1 :: l2 :: 0x45 :: 0x20 :: r)).calls
        = [HvpCall.rdEE s.address (256 * l1 + l2)]
    ∧ (∀ m1 m2, m1 < 256 → m2 < 256 → 256 < 256 * m1 + m2 → 256 * m1 + m2 ≤ 32767 →
        bridgeStep o s (0x64 :: m1 :: m2 :: r) = noSyncRes s r) := by
  refine ⟨?_, ?_, ?_⟩
  · rw [bridgeStep_cons o s 0x55 _ (by norm_num), dispatch_loadAddress]
    simp [cmdLoadAddress, getch, emptyReply, Nat.mod_eq_of_lt hlo, Nat.mod_eq_of_lt hhi]
  · have hv : i16 (256 * (l1 : Int) + (l2 : Int)) = 256 * (l1 : Int) + (l2 : Int) := by
      unfold i16
      omega
    have hg : ¬ ((256 : Int) < 256 * (l1 : Int) + (l2 : Int)) := by omega
    have hu : u16 (256 * (l1 : Int) + (l2 : Int)) = 256 * l1 + l2 := by
      unfold u16
      omega
    have hb0 : (setBytes s.buffer 0 [0x45, 0x20])[0]?.getD 0 = 0x45 := by
      have h1 : (0 : Nat) < s.buffer.length := by omega
      simp [setBytes, List.getElem?_set, h1]
    rw [bridgeStep_cons o s 0x74 _ (by norm_num), dispatch_readPage]
    simp only [cmdReadPage, Nat.mod_eq_of_lt hl1, Nat.mod_eq_of_lt hl2, hv]
    rw [if_neg hg]
    simp only [readPageGo, getbn]
    norm_num
    rw [if_neg hm]
    rw [hb0]
    norm_num [readPageE, hu]
  · intro m1 m2 hm1 hm2 hgt hle
    have hv : i16 (256 * (m1 : Int) + (m2 : Int)) = 256 * (m1 : Int) + (m2 : Int) := by
      unfold i16
      omega
    have hg : (256 : Int) < 256 * (m1 : Int) + (m2 : Int) := by omega
    rw [bridgeStep_cons o s 0x64 _ (by norm_num), dispatch_progPage]
    simp [cmdProgPage, Nat.mod_eq_of_lt hm1, Nat.mod_eq_of_lt hm2, hv, hg]

/-- The concrete initial state's transfer buffer has length 258. -/
theorem state0_buffer_length : state0.buffer.length = 258 := by
  rw [show state0.buffer = List.replicate 258 0 from rfl]
  exact List.length_replicate _ _

/-- Witness for `wire_field_endianness` at operand bytes 01 02, length
bytes 00 04 (EEPROM page read of 4 bytes), and over-length bytes
01 01 (declared length 257). -/
theorem wire_field_endianness_witness :
    (bridgeStep oracle0 { state0 with mode := 1 } [0x55, 1, 2, 0x20]).state.address
        = 1 + 256 * 2
    ∧ (bridgeStep oracle0 { state0 with mode := 1 } [0x74, 0, 4, 0x45, 0x20]).calls
        = [HvpCall.rdEE ({ state0 with mode := 1 } : BState).address (256 * 0 + 4)]
    ∧ bridgeStep oracle0 { state0 with mode := 1 } [0x64, 1, 1]
        = noSyncRes { state0 with mode := 1 } [] := by
  obtain ⟨a, b, c⟩ := wire_field_endianness oracle0 { state0 with mode := 1 } [] 1 2 0 4
    (by norm_num) (by norm_num) (by norm_num) (by norm_num) (by norm_num) (by norm_num)
    (by
      rw [show ({ state0 with mode := 1 } : BState).buffer = state0.buffer from rfl,
        state0_buffer_length]
      omega)
  exact ⟨a, b, c 1 1 (by norm_num) (by norm_num) (by norm_num) (by norm_num)⟩

/-! ## Claim C9: idempotence of leave-programming-mode -/

/-- Claim C9: with the programming-mode flag already off, any number of
repeated leave-programming-mode commands leaves the bridge state
exactly unchanged, invokes only the standby sequence, and the settled
signal-line states remain exactly those established by the previous
standby (the standby pin sequence is idempotent). -/
theorem leave_progmode_idempotent (o : Oracle) (s : BState) (p : Pins) (n : Nat)
    (h : s.mode = 0) :
    (bridgeRun o n s (leaveCmds n)).1 = s
    ∧ (bridgeRun o n s (leaveCmds n)).2.2 = List.replicate n HvpCall.standby
    ∧ (List.replicate n HvpCall.standby).foldl applyCall (hvpStandbyMode p)
        = hvpStandbyMode p := by
  have hs0 : { s with mode := 0 } = s := by
    cases s
    simp_all
  have key : ∀ m, (bridgeRun o m s (leaveCmds m)).1 = s
      ∧ (bridgeRun o m s (leaveCmds m)).2.2 = List.replicate m HvpCall.standby := by
    intro m
    induction m with
    | zero => simp [bridgeRun, leaveCmds]
    | succ k ih =>
      have hl : leaveCmds (k + 1) = 0x51 :: 0x20 :: leaveCmds k := by
        simp [leaveCmds, List.replicate_succ]
      rw [hl]
      simp [bridgeRun, dispatch, cmdLeaveProg, emptyReply, hs0, ih.1, ih.2,
        List.replicate_succ]
  have pinpart : ∀ (m : Nat),
      (List.replicate m HvpCall.standby).foldl applyCall (hvpStandbyMode p)
        = hvpStandbyMode p := by
    intro m
    induction m with
    | zero => rfl
    | succ k ih => simp [List.replicate_succ, applyCall, standby_idem, ih]
  exact ⟨(key n).1, (key n).2, pinpart n⟩

/-- Witness for `leave_progmode_idempotent`: two leave commands from
the idle initial state. -/
theorem leave_progmode_idempotent_witness :
    (bridgeRun oracle0 2 state0 (leaveCmds 2)).1 = state0
    ∧ (bridgeRun oracle0 2 state0 (leaveCmds 2)).2.2 = List.replicate 2 HvpCall.standby
    ∧ (List.replicate 2 HvpCall.standby).foldl applyCall (hvpStandbyMode pins0)
        = hvpStandbyMode pins0 :=
  leave_progmode_idempotent oracle0 state0 pins0 2 rfl

/-! ## Claim C3: bad sentinel behaviour -/

/-- Claim C3 counterexample: the load-address command with a wrong
sentinel byte (0x21) still replies only the no-sync token, but the
address cursor has already been overwritten (0 before, 0x1234 after):
the transaction state is not left unchanged for every command. -/
theorem bad_sentinel_load_address_mutates :
    (bridgeStep oracle0 state0 [0x55, 0x34, 0x12, 0x21]).out = [0x15]
    ∧ state0.address = 0
    ∧ (bridgeStep oracle0 state0 [0x55, 0x34, 0x12, 0x21]).state.address = 0x1234 := by
  refine ⟨by decide, by decide, by decide⟩

/-- Claim C3 amended: for every command except load-address (0x55),
set-device (0x42), set-device-extended (0x45) and
leave-programming-mode (0x51) — which perform their state update (and,
for leave, the standby sequencer call) before the sentinel check — a
non-0x20 byte at the sentinel position yields exactly the single
no-sync token, no sequencer call, and unchanged mode flag, address
cursor, device and extras records (only the transfer buffer may have
been overwritten with the received payload). -/
theorem bad_sentinel_rejected (o : Oracle) (s : BState) (z : Nat) (r : List Nat)
    (hz : z < 256) (hzs : z ≠ 0x20) :
    bridgeStep o s (0x52 :: z :: r) = noSyncRes s r
    ∧ bridgeStep o s (0x75 :: z :: r) = noSyncRes s r
    ∧ bridgeStep o s (0x72 :: z :: r) = noSyncRes s r
    ∧ bridgeStep o s (0x77 :: z :: r) = noSyncRes s r
    ∧ bridgeStep o s (0x73 :: z :: r) = noSyncRes s r
    ∧ bridgeStep o s (0x70 :: z :: r) = noSyncRes s r
    ∧ bridgeStep o s (0x71 :: z :: r) = noSyncRes s r
    ∧ bridgeStep o s (0x50 :: z :: r) = noSyncRes s r
    ∧ bridgeStep o s (0x53 :: z :: r) = noSyncRes s r
    ∧ bridgeStep o s (0x30 :: z :: r) = noSyncRes s r
    ∧ bridgeStep o s (0x31 :: z :: r) = noSyncRes s r
    ∧ (∀ p1, bridgeStep o s (0x63 :: p1 :: z :: r)
        = noSyncRes { s with buffer := setBytes s.buffer 0 [p1 % 256, z] } r)
    ∧ (∀ p1, bridgeStep o s (0x61 :: p1 :: z :: r)
        = noSyncRes { s with buffer := setBytes s.buffer 0 [p1 % 256, z] } r)
    ∧ (∀ p1, bridgeStep o s (0x41 :: p1 :: z :: r)
        = noSyncRes { s with buffer := setBytes s.buffer 0 [p1 % 256, z] } r)
    ∧ (∀ p1 p2, bridgeStep o s (0x62 :: p1 :: p2 :: z :: r)
        = noSyncRes { s with buffer := setBytes s.buffer 0 [p1 % 256, p2 % 256, z] } r)
    ∧ (∀ p1 p2, bridgeStep o s (0x60 :: p1 :: p2 :: z :: r)
        = noSyncRes { s with buffer := setBytes s.buffer 0 [p1 % 256, p2 % 256, z] } r)
    ∧ (∀ p1 p2, bridgeStep o s (0x40 :: p1 :: p2 :: z :: r)
        = noSyncRes { s with buffer := setBytes s.buffer 0 [p1 % 256, p2 % 256] } r)
    ∧ (∀ p1 p2 p3, bridgeStep o s (0x65 :: p1 :: p2 :: p3 :: z :: r)
        = noSyncRes { s with buffer := setBytes s.buffer 0 [p1 % 256, p2 % 256, p3 % 256, z] } r)
    ∧ (∀ p1 p2 p3 p4, bridgeStep o s (0x56 :: p1 :: p2 :: p3 :: p4 :: z :: r)
        = noSyncRes
            { s with buffer := setBytes s.buffer 0 [p1 % 256, p2 % 256, p3 % 256, p4 % 256, z] } r)
    ∧ (∀ l1 l2 t, l1 < 256 → l2 < 256 → 256 * l1 + l2 ≤ 256 →
        bridgeStep o s (0x74 :: l1 :: l2 :: t :: z :: r)
          = noSyncRes { s with buffer := setBytes s.buffer 0 [t % 256, z] } r)
    ∧ (∀ l1 l2 bs, l1 < 256 → l2 < 256 → 256 * l1 + l2 ≤ 256 →
        bs.length = 256 * l1 + l2 + 1 →
        bridgeStep o s (0x64 :: l1 :: l2 :: (bs ++ z :: r))
          = noSyncRes { s with buffer := setBytes s.buffer 0 (bs.map (· % 256) ++ [z]) } r)
    ∧ (∀ c, c < 256 →
        c ∉ ([0x5a, 0x52, 0x75, 0x62, 0x65, 0x72, 0x77, 0x73, 0x63, 0x55, 0x56, 0x60,
              0x61, 0x70, 0x71, 0x64, 0x74, 0x41, 0x40, 0x42, 0x45, 0x50, 0x51, 0x53,
              0x30, 0x31, 0x20] : List Nat) →
        bridgeStep o s (c :: z :: r) = noSyncRes s r) := by
  have hzm : z % 256 = z := Nat.mod_eq_of_lt hz
  refine ⟨?_, ?_, ?_, ?_, ?_, ?_, ?_, ?_, ?_, ?_, ?_, ?_, ?_, ?_, ?_, ?_, ?_, ?_, ?_,
    ?_, ?_, ?_⟩
  · rw [bridgeStep_cons o s 0x52 _ (by norm_num), dispatch_chipErase]
    simp [cmdChipErase, getch, hzm, hzs]
  · rw [bridgeStep_cons o s 0x75 _ (by norm_num), dispatch_readSign]
    simp [cmdReadSign, getch, hzm, hzs]
  · rw [bridgeStep_cons o s 0x72 _ (by norm_num), dispatch_readFuse]
    simp [cmdReadFuse, getch, hzm, hzs]
  · rw [bridgeStep_cons o s 0x77 _ (by norm_num), dispatch_readFuseExt]
    simp [cmdReadFuseExt, getch, hzm, hzs]
  · rw [bridgeStep_cons o s 0x73 _ (by norm_num), dispatch_readLock]
    simp [cmdReadLock, getch, hzm, hzs]
  · rw [bridgeStep_cons o s 0x70 _ (by norm_num), dispatch_readFlash]
    simp [cmdReadFlash, getch, hzm, hzs]
  · rw [bridgeStep_cons o s 0x71 _ (by norm_num), dispatch_readData]
    simp [cmdReadData, getch, hzm, hzs]
  · rw [bridgeStep_cons o s 0x50 _ (by norm_num), dispatch_enterProg]
    simp [cmdEnterProg, getch, hzm, hzs]
  · rw [bridgeStep_cons o s 0x53 _ (by norm_num), dispatch_autoinc]
    simp [cmdSync, emptyReply, noSyncRes, hzm, hzs]
  · rw [bridgeStep_cons o s 0x30 _ (by norm_num), dispatch_getSync]
    simp [cmdSync, emptyReply, noSyncRes, hzm, hzs]
  · rw [bridgeStep_cons o s 0x31 _ (by norm_num), dispatch_signOn]
    simp [cmdSignOn, getch, hzm, hzs]
  · intro p1
    rw [bridgeStep_cons o s 0x63 _ (by norm_num), dispatch_progLock]
    simp [cmdProgLock, getbn, hzm, hzs]
  · intro p1
    rw [bridgeStep_cons o s 0x61 _ (by norm_num), dispatch_progData]
    simp [cmdProgData, getbn, hzm, hzs]
  · intro p1
    rw [bridgeStep_cons o s 0x41 _ (by norm_num), dispatch_getParam]
    simp [cmdGetParam, getbn, hzm, hzs]
  · intro p1 p2
    rw [bridgeStep_cons o s 0x62 _ (by norm_num), dispatch_progFuse]
    simp [cmdProgFuse, getbn, hzm, hzs]
  · intro p1 p2
    rw [bridgeStep_cons o s 0x60 _ (by norm_num), dispatch_progFlash]
    simp [cmdProgFlash, getbn, hzm, hzs]
  · intro p1 p2
    rw [bridgeStep_cons o s 0x40 _ (by norm_num), dispatch_setParam]
    simp [cmdSetParam, getbn, emptyReply, noSyncRes, hzm, hzs]
  · intro p1 p2 p3
    rw [bridgeStep_cons o s 0x65 _ (by norm_num), dispatch_progFuseExt]
    simp [cmdProgFuseExt, getbn, hzm, hzs]
  · intro p1 p2 p3 p4
    rw [bridgeStep_cons o s 0x56 _ (by norm_num), dispatch_univ]
    simp [cmdUniversal, getbn, hzm, hzs]
  · intro l1 l2 t hl1 hl2 hlen
    have hv : i16 (256 * (l1 : Int) + (l2 : Int)) = 256 * (l1 : Int) + (l2 : Int) := by
      unfold i16
      omega
    have hg : ¬ ((256 : Int) < 256 * (l1 : Int) + (l2 : Int)) := by omega
    rw [bridgeStep_cons o s 0x74 _ (by norm_num), dispatch_readPage]
    simp only [cmdReadPage, Nat.mod_eq_of_lt hl1, Nat.mod_eq_of_lt hl2, hv]
    rw [if_neg hg]
    simp [readPageGo, getbn, hzm, hzs]
  · intro l1 l2 bs hl1 hl2 hlen hbs
    have hv : i16 (256 * (l1 : Int) + (l2 : Int)) = 256 * (l1 : Int) + (l2 : Int) := by
      unfold i16
      omega
    have hg : ¬ ((256 : Int) < 256 * (l1 : Int) + (l2 : Int)) := by omega
    have hu : u16 (256 * (l1 : Int) + (l2 : Int) + 2) = bs.length + 1 := by
      unfold u16
      omega
    rw [bridgeStep_cons o s 0x64 _ (by norm_num), dispatch_progPage]
    simp only [cmdProgPage, Nat.mod_eq_of_lt hl1, Nat.mod_eq_of_lt hl2, hv]
    rw [if_neg hg]
    simp only [progPageGo, hu, getbn_full]
    simp [hzm, hzs]
  · intro c hc hmem
    simp only [List.mem_cons, List.not_mem_nil, or_false, not_or] at hmem
    obtain ⟨n1, n2, n3, n4, n5, n6, n7, n8, n9, n10, n11, n12, n13, n14, n15, n16, n17,
      n18, n19, n20, n21, n22, n23, n24, n25, n26, n27⟩ := hmem
    rw [bridgeStep_cons o s c _ hc]
    unfold dispatch
    rw [if_neg n1, if_neg n2, if_neg n3, if_neg n4, if_neg n5, if_neg n6, if_neg n7,
      if_neg n8, if_neg n9, if_neg n10, if_neg n11, if_neg n12, if_neg n13, if_neg n14,
      if_neg n15, if_neg n16, if_neg n17, if_neg n18, if_neg n19, if_neg n20, if_neg n21,
      if_neg n22, if_neg n23, if_neg n24, if_neg n25, if_neg n26, if_neg n27]
    simp [cmdUnknown, getch, hzm, hzs]

/-- Witness for `bad_sentinel_rejected` with sentinel byte 0x21: the
chip-erase frame, a program-lock frame, a one-byte flash page program
frame, and an unknown command byte 0x7B. -/
theorem bad_sentinel_rejected_witness :
    bridgeStep oracle0 state0 [0x52, 0x21] = noSyncRes state0 []
    ∧ bridgeStep oracle0 state0 [0x63, 0x07, 0x21]
        = noSyncRes { state0 with buffer := setBytes state0.buffer 0 [0x07, 0x21] } []
    ∧ bridgeStep oracle0 state0 [0x64, 0x00, 0x01, 0x46, 0xaa, 0x21]
        = noSyncRes { state0 with buffer := setBytes state0.buffer 0 [0x46, 0xaa, 0x21] } []
    ∧ bridgeStep oracle0 state0 [0x7b, 0x21] = noSyncRes state0 [] := by
  obtain ⟨h52, -, -, -, -, -, -, -, -, -, -, h63, -, -, -, -, -, -, -, -, h64, hun⟩ :=
    bad_sentinel_rejected oracle0 state0 0x21 [] (by norm_num) (by norm_num)
  refine ⟨h52, h63 0x07, ?_, hun 0x7b (by norm_num) (by norm_num)⟩
  have h := h64 0 1 [0x46, 0xaa] (by norm_num) (by norm_num) (by norm_num) (by norm_num)
  simpa using h

/-! ## Claim C6: programming-mode precondition -/

/-- Claim C6 counterexample: with the flag off and a device configured,
a chip-erase command does not auto-enter programming mode: the
precondition check fails the command with in-sync+failed, no sequencer
call is made (in particular no program-mode entry), and the flag stays
off. -/
theorem progmode_off_chip_erase_fails :
    (bridgeStep oracle0 { state0 with device := 0x93 :: List.replicate 19 0 } [0x52, 0x20]).out
        = [0x14, 0x11]
    ∧ (bridgeStep oracle0 { state0 with device := 0x93 :: List.replicate 19 0 } [0x52, 0x20]).calls
        = []
    ∧ (bridgeStep oracle0 { state0 with device := 0x93 :: List.replicate 19 0 }
        [0x52, 0x20]).state.mode = 0 := by
  refine ⟨by decide, by decide, by decide⟩

/-- Claim C6 amended: the precondition check `set_programming_mode 0xff`
only queries the mode flag and never enters programming mode; every
command that requires programming mode fails with in-sync+failed
(0x14 0x11) and no sequencer call when the flag is off; programming
mode is entered only by the explicit enter command 0x50 with a device
configured; and besides the leave command, the custom-command escape
and a mid-transaction timeout also force the flag off. -/
theorem progmode_query_only (o : Oracle) (s : BState) (r : List Nat) (h : s.mode = 0) :
    (∀ m, set_programming_mode 0xff m = (m, [], m))
    ∧ bridgeStep o s (0x52 :: 0x20 :: r) = failRes s r
    ∧ bridgeStep o s (0x75 :: 0x20 :: r) = failRes s r
    ∧ bridgeStep o s (0x72 :: 0x20 :: r) = failRes s r
    ∧ bridgeStep o s (0x77 :: 0x20 :: r) = failRes s r
    ∧ bridgeStep o s (0x73 :: 0x20 :: r) = failRes s r
    ∧ bridgeStep o s (0x70 :: 0x20 :: r) = failRes s r
    ∧ bridgeStep o s (0x71 :: 0x20 :: r) = failRes s r
    ∧ (∀ p1, bridgeStep o s (0x63 :: p1 :: 0x20 :: r)
        = failRes { s with buffer := setBytes s.buffer 0 [p1 % 256, 0x20] } r)
    ∧ (∀ p1, bridgeStep o s (0x61 :: p1 :: 0x20 :: r)
        = failRes { s with buffer := setBytes s.buffer 0 [p1 % 256, 0x20] } r)
    ∧ (∀ p1 p2, bridgeStep o s (0x62 :: p1 :: p2 :: 0x20 :: r)
        = failRes { s with buffer := setBytes s.buffer 0 [p1 % 256, p2 % 256, 0x20] } r)
    ∧ (∀ p1 p2 p3, bridgeStep o s (0x65 :: p1 :: p2 :: p3 :: 0x20 :: r)
        = failRes { s with buffer := setBytes s.buffer 0 [p1 % 256, p2 % 256, p3 % 256, 0x20] } r)
    ∧ (∀ p1 p2 p3 p4, bridgeStep o s (0x56 :: p1 :: p2 :: p3 :: p4 :: 0x20 :: r)
        = failRes
            { s with buffer := setBytes s.buffer 0 [p1 % 256, p2 % 256, p3 % 256, p4 % 256, 0x20] }
            r)
    ∧ (∀ l1 l2 t, l1 < 256 → l2 < 256 → 256 * l1 + l2 ≤ 256 →
        bridgeStep o s (0x74 :: l1 :: l2 :: t :: 0x20 :: r)
          = failRes { s with buffer := setBytes s.buffer 0 [t % 256, 0x20] } r)
    ∧ (∀ l1 l2 bs, l1 < 256 → l2 < 256 → 256 * l1 + l2 ≤ 256 →
        bs.length = 256 * l1 + l2 + 1 →
        bridgeStep o s (0x64 :: l1 :: l2 :: (bs ++ 0x20 :: r))
          = failRes { s with buffer := setBytes s.buffer 0 (bs.map (· % 256) ++ [0x20]) } r)
    ∧ (¬ s.device.getD 0 0 = 0 →
        bridgeStep o s (0x50 :: 0x20 :: r)
          = ⟨{ s with mode := 1 }, [0x14, 0x10], [HvpCall.progMode], r⟩)
    ∧ (bridgeStep o s [0x52]).state.mode = 0
    ∧ (∀ s2 : BState, (bridgeStep o s2 (0x5a :: r)).state.mode = 0) := by
  refine ⟨?_, ?_, ?_, ?_, ?_, ?_, ?_, ?_, ?_, ?_, ?_, ?_, ?_, ?_, ?_, ?_, rfl, fun s2 => rfl⟩
  · intro m
    simp [set_programming_mode]
  · rw [bridgeStep_cons o s 0x52 _ (by norm_num), dispatch_chipErase]
    simp [cmdChipErase, getch, h]
  · rw [bridgeStep_cons o s 0x75 _ (by norm_num), dispatch_readSign]
    simp [cmdReadSign, getch, h]
  · rw [bridgeStep_cons o s 0x72 _ (by norm_num), dispatch_readFuse]
    simp [cmdReadFuse, getch, h]
  · rw [bridgeStep_cons o s 0x77 _ (by norm_num), dispatch_readFuseExt]
    simp [cmdReadFuseExt, getch, h]
  · rw [bridgeStep_cons o s 0x73 _ (by norm_num), dispatch_readLock]
    simp [cmdReadLock, getch, h]
  · rw [bridgeStep_cons o s 0x70 _ (by norm_num), dispatch_readFlash]
    simp [cmdReadFlash, getch, h]
  · rw [bridgeStep_cons o s 0x71 _ (by norm_num), dispatch_readData]
    simp [cmdReadData, getch, h]
  · intro p1
    rw [bridgeStep_cons o s 0x63 _ (by norm_num), dispatch_progLock]
    simp [cmdProgLock, getbn, h]
  · intro p1
    rw [bridgeStep_cons o s 0x61 _ (by norm_num), dispatch_progData]
    simp [cmdProgData, getbn, h]
  · intro p1 p2
    rw [bridgeStep_cons o s 0x62 _ (by norm_num), dispatch_progFuse]
    simp [cmdProgFuse, getbn, h]
  · intro p1 p2 p3
    rw [bridgeStep_cons o s 0x65 _ (by norm_num), dispatch_progFuseExt]
    simp [cmdProgFuseExt, getbn, h]
  · intro p1 p2 p3 p4
    rw [bridgeStep_cons o s 0x56 _ (by norm_num), dispatch_univ]
    simp [cmdUniversal, getbn, h]
  · intro l1 l2 t hl1 hl2 hlen
    have hv : i16 (256 * (l1 : Int) + (l2 : Int)) = 256 * (l1 : Int) + (l2 : Int) := by
      unfold i16
      omega
    have hg : ¬ ((256 : Int) < 256 * (l1 : Int) + (l2 : Int)) := by omega
    rw [bridgeStep_cons o s 0x74 _ (by norm_num), dispatch_readPage]
    simp only [cmdReadPage, Nat.mod_eq_of_lt hl1, Nat.mod_eq_of_lt hl2, hv]
    rw [if_neg hg]
    simp [readPageGo, getbn, h]
  · intro l1 l2 bs hl1 hl2 hlen hbs
    have hv : i16 (256 * (l1 : Int) + (l2 : Int)) = 256 * (l1 : Int) + (l2 : Int) := by
      unfold i16
      omega
    have hg : ¬ ((256 : Int) < 256 * (l1 : Int) + (l2 : Int)) := by omega
    have hu : u16 (256 * (l1 : Int) + (l2 : Int) + 2) = bs.length + 1 := by
      unfold u16
      omega
    rw [bridgeStep_cons o s 0x64 _ (by norm_num), dispatch_progPage]
    simp only [cmdProgPage, Nat.mod_eq_of_lt hl1, Nat.mod_eq_of_lt hl2, hv]
    rw [if_neg hg]
    simp only [progPageGo, hu, getbn_full]
    simp [h]
  · intro hdev
    have hdev2 : ¬ s.device[0]?.getD 0 = 0 := by simpa using hdev
    rw [bridgeStep_cons o s 0x50 _ (by norm_num), dispatch_enterProg]
    simp [cmdEnterProg, getch, set_programming_mode, hdev2, h]

/-- Witness for `progmode_query_only`: the flag query, a failed
chip-erase, a failed lock program, and a successful explicit entry,
all from the idle initial state with a device configured. -/
theorem progmode_query_only_witness :
    set_programming_mode 0xff 1 = (1, [], 1)
    ∧ bridgeStep oracle0 { state0 with device := 0x93 :: List.replicate 19 0 } [0x52, 0x20]
        = failRes { state0 with device := 0x93 :: List.replicate 19 0 } []
    ∧ bridgeStep oracle0 { state0 with device := 0x93 :: List.replicate 19 0 }
          [0x63, 0x07, 0x20]
        = failRes
            { state0 with
                device := 0x93 :: List.replicate 19 0
                buffer := setBytes state0.buffer 0 [0x07, 0x20] } []
    ∧ bridgeStep oracle0 { state0 with device := 0x93 :: List.replicate 19 0 } [0x50, 0x20]
        = ⟨{ state0 with
                device := 0x93 :: List.replicate 19 0
                mode := 1 },
           [0x14, 0x10], [HvpCall.progMode], []⟩ := by
  obtain ⟨hq, h52, -, -, -, -, -, -, h63, -, -, -, -, -, -, h50, -, -⟩ :=
    progmode_query_only oracle0 { state0 with device := 0x93 :: List.replicate 19 0 } [] rfl
  exact ⟨hq 1, h52, h63 0x07, h50 (by decide)⟩
